import Mathlib

/-!
Verification development for the Slither.io-clone repository.

Shallow embedding conventions:
* JavaScript numbers are modelled exactly: by `ℚ` where the source only uses
  field operations and comparisons (quadtree, toroidal wrap), and by `ℝ` where
  the source calls Math.sqrt / Math.cos / Math.sin / Math.atan2 (geometry
  utilities, snake update pipeline).
* Mutation is modelled by explicit state passing; `Math.random()` calls are
  modelled by explicitly passed sample values (with their `[0,1)` range as a
  hypothesis where it matters).
* Names follow the source files (src/js/quadtree.js, ui.js, snake.js,
  collision.js, npc.js, gameState.js, config.js).
-/

namespace SlitherSpec

/-! ## Configuration constants (src/js/config.js) -/

/-- CONFIG.WORLD.WIDTH (config.js line 8). -/
def WORLD_WIDTH : ℚ := 5000

/-- CONFIG.WORLD.HEIGHT (config.js line 9). -/
def WORLD_HEIGHT : ℚ := 5000

/-- CONFIG.QUADTREE.MAX_OBJECTS (config.js line 129). -/
def MAX_OBJECTS : ℕ := 10

/-- CONFIG.QUADTREE.MAX_LEVELS (config.js line 130). -/
def MAX_LEVELS : ℕ := 5

/-! ## QuadTree (src/js/quadtree.js)

An axis-aligned box, used both as an entity bounding box and as a quadtree
region. Fields as in the JS object literals: x, y, width, height. -/

structure Box where
  x : ℚ
  y : ℚ
  width : ℚ
  height : ℚ
deriving DecidableEq, Repr

/-- QuadTree.getIndex (quadtree.js lines 81-109): which child quadrant an
object completely fits into; -1 when it straddles a midline (it then stays at
the current node).  Child numbering as in split(): 0 top-right, 1 top-left,
2 bottom-left, 3 bottom-right. -/
def getIndex (bounds rect : Box) : Int :=
  let verticalMidpoint := bounds.x + bounds.width / 2
  let horizontalMidpoint := bounds.y + bounds.height / 2
  if rect.x < verticalMidpoint ∧ rect.x + rect.width < verticalMidpoint then
    (if rect.y < horizontalMidpoint ∧ rect.y + rect.height < horizontalMidpoint then 1
     else if rect.y > horizontalMidpoint then 2
     else -1)
  else if rect.x > verticalMidpoint then
    (if rect.y < horizontalMidpoint ∧ rect.y + rect.height < horizontalMidpoint then 0
     else if rect.y > horizontalMidpoint then 3
     else -1)
  else -1

/-- A quadtree node (quadtree.js).  In the JS class, `nodes` is either the
empty array (a leaf) or exactly four children created by split(); we model
those two shapes as two constructors.  `objects` is the list of boxes stored
at this node. -/
inductive QTree : Type where
  | leaf (bounds : Box) (level : ℕ) (objects : List Box)
  | node (bounds : Box) (level : ℕ) (objects : List Box) (c0 c1 c2 c3 : QTree)
deriving Repr, DecidableEq

namespace QTree

def bounds : QTree → Box
  | leaf b _ _ => b
  | node b _ _ _ _ _ _ => b

def level : QTree → ℕ
  | leaf _ lv _ => lv
  | node _ lv _ _ _ _ _ => lv

/-- Region of child 0 (top right), from split() (quadtree.js lines 44-49). -/
def subBox0 (b : Box) : Box :=
  ⟨b.x + b.width / 2, b.y, b.width / 2, b.height / 2⟩

/-- Region of child 1 (top left), from split() (quadtree.js lines 52-57). -/
def subBox1 (b : Box) : Box :=
  ⟨b.x, b.y, b.width / 2, b.height / 2⟩

/-- Region of child 2 (bottom left), from split() (quadtree.js lines 60-65). -/
def subBox2 (b : Box) : Box :=
  ⟨b.x, b.y + b.height / 2, b.width / 2, b.height / 2⟩

/-- Region of child 3 (bottom right), from split() (quadtree.js lines 68-73). -/
def subBox3 (b : Box) : Box :=
  ⟨b.x + b.width / 2, b.y + b.height / 2, b.width / 2, b.height / 2⟩

/-- State of the redistribution loop of insert (quadtree.js lines 135-146):
the objects kept at this node so far, and the four (possibly updated)
children. -/
structure RState where
  kept : List Box
  n0 : QTree
  n1 : QTree
  n2 : QTree
  n3 : QTree

/-- Fallback used only when the recursion fuel runs out: push the object onto
this node's `objects` without splitting.  For trees built through the public
API the fuel `MAX_LEVELS + 1` is never exhausted (child levels increase by 1
per recursive insert and splitting stops at MAX_LEVELS); every lemma below is
proved for all fuel values, so nothing depends on this. -/
def pushObj : QTree → Box → QTree
  | leaf bb lv objs, obj => leaf bb lv (objs ++ [obj])
  | node bb lv objs c0 c1 c2 c3, obj => node bb lv (objs ++ [obj]) c0 c1 c2 c3

/-- One iteration of the splice-and-reinsert loop of insert (quadtree.js
lines 136-146): an object whose getIndex is a child index is moved into that
child (by a recursive insert, passed in as `ins`); otherwise it stays in the
node's own list.  The while/splice loop visits each stored object exactly
once, in order, so it is a left fold of this step. -/
def redistStep (ins : QTree → Box → QTree) (bb : Box) (st : RState) (o : Box) : RState :=
  let idx := getIndex bb o
  if idx = 0 then { st with n0 := ins st.n0 o }
  else if idx = 1 then { st with n1 := ins st.n1 o }
  else if idx = 2 then { st with n2 := ins st.n2 o }
  else if idx = 3 then { st with n3 := ins st.n3 o }
  else { st with kept := st.kept ++ [o] }

/-- QuadTree.insert (quadtree.js lines 115-148), with an explicit recursion
fuel (decremented on every insert into a child).  Mirrors the source: if
children exist and the object fits a quadrant, insert there; otherwise push it
here, and on overflow (count > MAX_OBJECTS at level < MAX_LEVELS) split (if
still a leaf) and redistribute the stored objects into the children. -/
def insertAux : ℕ → QTree → Box → QTree
  | 0, t, obj => pushObj t obj
  | fuel+1, leaf bb lv objs, obj =>
      let objs' := objs ++ [obj]
      if MAX_OBJECTS < objs'.length ∧ lv < MAX_LEVELS then
        let st := objs'.foldl (redistStep (insertAux fuel) bb)
          ⟨[], leaf (subBox0 bb) (lv+1) [], leaf (subBox1 bb) (lv+1) [],
              leaf (subBox2 bb) (lv+1) [], leaf (subBox3 bb) (lv+1) []⟩
        node bb lv st.kept st.n0 st.n1 st.n2 st.n3
      else leaf bb lv objs'
  | fuel+1, node bb lv objs c0 c1 c2 c3, obj =>
      let idx := getIndex bb obj
      if idx = 0 then node bb lv objs (insertAux fuel c0 obj) c1 c2 c3
      else if idx = 1 then node bb lv objs c0 (insertAux fuel c1 obj) c2 c3
      else if idx = 2 then node bb lv objs c0 c1 (insertAux fuel c2 obj) c3
      else if idx = 3 then node bb lv objs c0 c1 c2 (insertAux fuel c3 obj)
      else
        let objs' := objs ++ [obj]
        if MAX_OBJECTS < objs'.length ∧ lv < MAX_LEVELS then
          let st := objs'.foldl (redistStep (insertAux fuel) bb) ⟨[], c0, c1, c2, c3⟩
          node bb lv st.kept st.n0 st.n1 st.n2 st.n3
        else node bb lv objs' c0 c1 c2 c3

/-- Public insert: the fuel MAX_LEVELS + 1 covers the deepest possible chain
of child inserts for a tree rooted at level 0 (see pushObj's comment). -/
def insert (t : QTree) (obj : Box) : QTree :=
  insertAux (MAX_LEVELS + 1) t obj

/-- QuadTree.retrieve (quadtree.js lines 155-175): objects that could collide
with the query box.  If the query fits entirely in one child quadrant, only
that child is searched; otherwise all four are; the node's own objects are
always appended. -/
def retrieve : QTree → Box → List Box
  | leaf _ _ objs, _ => objs
  | node bb _ objs c0 c1 c2 c3, q =>
      let idx := getIndex bb q
      (if idx = 0 then retrieve c0 q
       else if idx = 1 then retrieve c1 q
       else if idx = 2 then retrieve c2 q
       else if idx = 3 then retrieve c3 q
       else retrieve c0 q ++ retrieve c1 q ++ retrieve c2 q ++ retrieve c3 q) ++ objs

/-- QuadTree.getAllObjects (quadtree.js lines 181-191). -/
def getAllObjects : QTree → List Box
  | leaf _ _ objs => objs
  | node _ _ objs c0 c1 c2 c3 =>
      objs ++ getAllObjects c0 ++ getAllObjects c1 ++ getAllObjects c2 ++ getAllObjects c3

/-- QuadTree.clear (quadtree.js lines 22-32): objects and children are reset,
bounds and level are kept. -/
def clear (t : QTree) : QTree := leaf t.bounds t.level []

/-- The constructor `new QuadTree(bounds)` (level defaults to 0). -/
def make (b : Box) : QTree := leaf b 0 []

/-- Inserting a whole list of boxes in order. -/
def insertAll (t : QTree) (bs : List Box) : QTree := bs.foldl insert t

/-- Soundness invariant of the tree structure: every object stored anywhere in
the subtree of child i has getIndex i at this node.  insert only places an
object into child i when getIndex returns i, so this holds for every tree
built through the API. -/
def Inv : QTree → Prop
  | leaf _ _ _ => True
  | node bb _ _ c0 c1 c2 c3 =>
      (∀ o ∈ getAllObjects c0, getIndex bb o = 0) ∧
      (∀ o ∈ getAllObjects c1, getIndex bb o = 1) ∧
      (∀ o ∈ getAllObjects c2, getIndex bb o = 2) ∧
      (∀ o ∈ getAllObjects c3, getIndex bb o = 3) ∧
      Inv c0 ∧ Inv c1 ∧ Inv c2 ∧ Inv c3

/-- All boxes held by a redistribution state, in node order (kept objects,
then the four children). -/
def RState.allObjects (st : RState) : List Box :=
  st.kept ++ getAllObjects st.n0 ++ getAllObjects st.n1 ++ getAllObjects st.n2 ++
    getAllObjects st.n3

/-- The invariant on a redistribution state: each child holds only objects
with the matching quadrant index, and each child satisfies Inv. -/
def RInv (bb : Box) (st : RState) : Prop :=
  (∀ o ∈ getAllObjects st.n0, getIndex bb o = 0) ∧
  (∀ o ∈ getAllObjects st.n1, getIndex bb o = 1) ∧
  (∀ o ∈ getAllObjects st.n2, getIndex bb o = 2) ∧
  (∀ o ∈ getAllObjects st.n3, getIndex bb o = 3) ∧
  Inv st.n0 ∧ Inv st.n1 ∧ Inv st.n2 ∧ Inv st.n3

end QTree

/-- Concrete world bounds and boxes for instantiating the quadtree claims
(11 unit boxes, enough to overflow MAX_OBJECTS = 10 and force one split). -/
def qtBounds : Box := ⟨0, 0, 100, 100⟩

def qtBoxes : List Box :=
  [⟨1, 1, 1, 1⟩, ⟨2, 2, 1, 1⟩, ⟨3, 3, 1, 1⟩,
   ⟨60, 1, 1, 1⟩, ⟨61, 2, 1, 1⟩, ⟨62, 3, 1, 1⟩,
   ⟨1, 60, 1, 1⟩, ⟨2, 61, 1, 1⟩, ⟨3, 62, 1, 1⟩,
   ⟨60, 60, 1, 1⟩, ⟨61, 61, 1, 1⟩]

def qtQuery : Box := ⟨0, 0, 4, 4⟩

/-- Geometric (closed) intersection of two axis-aligned boxes — the
specification-side notion used to state broad-phase soundness. -/
def rectIntersect (a b : Box) : Prop :=
  a.x ≤ b.x + b.width ∧ b.x ≤ a.x + a.width ∧
  a.y ≤ b.y + b.height ∧ b.y ≤ a.y + a.height

instance (a b : Box) : Decidable (rectIntersect a b) := by
  unfold rectIntersect
  infer_instance

/-! ## Geometry utilities (src/js/ui.js, Utils object)

Positions fed to Math.sqrt / Math.cos / Math.sin are modelled over ℝ. -/

/-- A circle as used throughout the code: an object with x, y and radius
(snake segments, entity circles). -/
structure Circle where
  x : ℝ
  y : ℝ
  radius : ℝ

namespace Utils

/-- Utils.distance (ui.js lines 211-215). -/
noncomputable def distance (point1 point2 : Circle) : ℝ :=
  Real.sqrt ((point2.x - point1.x) * (point2.x - point1.x) +
             (point2.y - point1.y) * (point2.y - point1.y))

/-- Utils.circleCollision (ui.js lines 336-339): strict inequality. -/
noncomputable def circleCollision (circle1 circle2 : Circle) : Prop :=
  distance circle1 circle2 < circle1.radius + circle2.radius

/-- Math.atan2, by the usual case split (only its type matters for the claims
below; no claim depends on its value). -/
noncomputable def jsAtan2 (y x : ℝ) : ℝ :=
  if 0 < x then Real.arctan (y / x)
  else if x < 0 then
    (if 0 ≤ y then Real.arctan (y / x) + Real.pi else Real.arctan (y / x) - Real.pi)
  else
    (if 0 < y then Real.pi / 2 else if y < 0 then -(Real.pi / 2) else 0)

/-- Utils.angle (ui.js lines 223-225). -/
noncomputable def angle (point1 point2 : Circle) : ℝ :=
  jsAtan2 (point2.y - point1.y) (point2.x - point1.x)

/-- Utils.random (ui.js lines 233-235) with the Math.random() sample made
explicit: random(min, max) = sample * (max - min) + min. -/
noncomputable def random (sample lo hi : ℝ) : ℝ :=
  sample * (hi - lo) + lo

/-- Utils.randomInt (ui.js lines 243-245): floor(random(min, max + 1)). -/
noncomputable def randomInt (sample lo hi : ℝ) : ℤ :=
  ⌊random sample lo (hi + 1)⌋

end Utils

/-! ## Toroidal wrap (ui.js wrapPoint, snake.js modular wrap)

These use only rational arithmetic, so they are modelled over ℚ. -/

/-- A bare (x, y) point. -/
structure PointQ where
  x : ℚ
  y : ℚ
deriving DecidableEq, Repr

/-- Utils.isInsideWorld (ui.js lines 297-300). -/
def isInsideWorld (point : PointQ) : Prop :=
  0 ≤ point.x ∧ point.x < WORLD_WIDTH ∧ 0 ≤ point.y ∧ point.y < WORLD_HEIGHT

instance (p : PointQ) : Decidable (isInsideWorld p) := by
  unfold isInsideWorld
  infer_instance

/-- Utils.wrapPoint (ui.js lines 307-317): one conditional correction per
axis and direction — note there is no loop. -/
def wrapPoint (point : PointQ) : PointQ :=
  let x1 := if point.x < 0 then point.x + WORLD_WIDTH else point.x
  let x2 := if x1 ≥ WORLD_WIDTH then x1 - WORLD_WIDTH else x1
  let y1 := if point.y < 0 then point.y + WORLD_HEIGHT else point.y
  let y2 := if y1 ≥ WORLD_HEIGHT then y1 - WORLD_HEIGHT else y1
  ⟨x2, y2⟩

/-- JavaScript truncation toward zero (the quotient underlying the % operator). -/
def jsTrunc (q : ℚ) : ℤ :=
  if 0 ≤ q then ⌊q⌋ else ⌈q⌉

/-- The JavaScript remainder operator a % n for n > 0: the result has the sign
of the dividend (a - n * trunc(a / n)). -/
def jsMod (a n : ℚ) : ℚ :=
  a - n * (jsTrunc (a / n) : ℚ)

/-- The modular wrap used in Snake.update (snake.js lines 68-70):
x = (x + WORLD.WIDTH) % WORLD.WIDTH (and the same for y). -/
def snakeWrapX (x : ℚ) : ℚ :=
  jsMod (x + WORLD_WIDTH) WORLD_WIDTH

/-! ## Snake model (src/js/snake.js, npc.js) -/

/-- CONFIG.PLAYER and CONFIG.DEATH_FOOD constants used by the snake pipeline
(config.js lines 17-28 and 119-125), over ℝ. -/
def WORLD_WIDTH_R : ℝ := 5000

def WORLD_HEIGHT_R : ℝ := 5000

def PLAYER_SPEED : ℝ := 3

def BOOST_SPEED : ℝ := 5

noncomputable def BOOST_CONSUMPTION : ℝ := 1 / 20

def MIN_SEGMENTS_FOR_BOOST : ℝ := 5

def SEGMENT_SPACING : ℝ := 5

def SEGMENT_RADIUS : ℝ := 10

def DEATH_MIN_COUNT : ℝ := 10

def DEATH_MAX_COUNT : ℝ := 50

def SPREAD_RADIUS : ℝ := 100

/-- Snake state (snake.js constructor, lines 13-30).  `id` models the unique
Entity id (entity.js line 12, used for the this === other reference checks);
fields not relevant to any claim (colors, the NPC AI fields) are omitted. -/
structure SnakeS where
  id : ℕ
  x : ℝ
  y : ℝ
  radius : ℝ
  angle : ℝ
  speed : ℝ
  size : ℝ
  segments : List Circle
  segmentSpacing : ℝ
  boosting : Bool
  markedForDeletion : Bool
  killedNPCs : ℕ
  score : ℝ
  maxScore : ℝ

/-- A DeathFood drop (food.js lines 69-74); only its position is
claim-relevant. -/
structure DeathFoodS where
  x : ℝ
  y : ℝ

/-- JavaScript truncation toward zero on ℝ. -/
noncomputable def jsTruncR (x : ℝ) : ℤ :=
  if 0 ≤ x then ⌊x⌋ else ⌈x⌉

/-- The JavaScript remainder a % n over ℝ. -/
noncomputable def jsModR (a n : ℝ) : ℝ :=
  a - n * (jsTruncR (a / n) : ℝ)

open scoped Classical in
/-- One step of the segment-follow loop (snake.js lines 77-96): move a segment
half of its excess distance toward its predecessor. -/
noncomputable def relaxSegment (spacing : ℝ) (segment prevSegment : Circle) : Circle :=
  let ang := Utils.angle segment prevSegment
  let idealDistance := spacing
  let dist := Utils.distance segment prevSegment
  if dist > idealDistance then
    let moveAmount := (dist - idealDistance) * (1 / 2)
    ⟨segment.x + Real.cos ang * moveAmount, segment.y + Real.sin ang * moveAmount,
     segment.radius⟩
  else segment

/-- Math.max(5, Math.floor(size / 2)) (snake.js lines 42 and 123). -/
noncomputable def idealSegmentCount (size : ℝ) : ℤ :=
  max 5 ⌊size / 2⌋

open scoped Classical in
/-- The grow half of updateSegments (snake.js lines 126-139): append segments
behind the tail while below the ideal count.  The fuel bounds the number of
iterations; called with fuel = ideal it performs exactly the shortfall. -/
noncomputable def growSegmentsAux (spacing radius : ℝ) (ideal : ℕ) :
    ℕ → List Circle → List Circle
  | 0, segs => segs
  | fuel+1, segs =>
      if segs.length < ideal then
        let lastSegment := segs.getLastD ⟨0, 0, 0⟩
        -- segments[length - 2] || lastSegment: for a one-element list the ||
        -- fallback and index 0 coincide, so getD with default lastSegment
        -- matches the JS expression in every reachable case.
        let secondLastSegment := segs.getD (segs.length - 2) lastSegment
        let ang := Utils.angle secondLastSegment lastSegment
        let newSeg : Circle :=
          ⟨lastSegment.x + Real.cos ang * spacing,
           lastSegment.y + Real.sin ang * spacing,
           radius * (1 - (segs.length : ℝ) / ((ideal : ℝ) * 2))⟩
        growSegmentsAux spacing radius ideal fuel (segs ++ [newSeg])
      else segs

/-- Snake.updateSegments (snake.js lines 122-145): grow to the ideal count,
then the pop-while loop truncates to the ideal count. -/
noncomputable def updateSegmentsList (s : SnakeS) : List Circle :=
  let ideal := (idealSegmentCount s.size).toNat
  let grown := growSegmentsAux s.segmentSpacing s.radius ideal ideal s.segments
  grown.take ideal

/-- The tail of Snake.update after the boosting block (snake.js lines 110-114):
updateSegments, then score := size and maxScore := max maxScore score. -/
noncomputable def finishUpdate (s : SnakeS) : SnakeS :=
  let s3 := { s with segments := updateSegmentsList s }
  { s3 with score := s3.size, maxScore := max s3.maxScore s3.size }

open scoped Classical in
/-- Snake.update (snake.js lines 59-117).  dropRoll models the
Math.random() < 0.1 food-drop roll (line 103).  The body-follow loop runs from
the tail down to index 1 and reads segments[i-1] before that slot is itself
rewritten, so each new segment i is relaxSegment of the old segment i and the
old segment i-1 — except i = 1, whose predecessor is the freshly written head
(lines 73-74); hence the zipWith against newHead :: oldTail.  Note the early
return inside the boosting block (line 105): when a drop occurs, updateSegments
and the score bookkeeping are skipped. -/
noncomputable def updateSnake (dropRoll : Bool) (s : SnakeS) : SnakeS × Option DeathFoodS :=
  let speed := if s.boosting then BOOST_SPEED else s.speed
  let dx := Real.cos s.angle * speed
  let dy := Real.sin s.angle * speed
  let x1 := jsModR (s.x + dx + WORLD_WIDTH_R) WORLD_WIDTH_R
  let y1 := jsModR (s.y + dy + WORLD_HEIGHT_R) WORLD_HEIGHT_R
  let segs1 :=
    match s.segments with
    | [] => []
    | h :: t =>
        let newHead : Circle := ⟨x1, y1, h.radius⟩
        newHead :: t.zipWith (relaxSegment s.segmentSpacing) (newHead :: t)
  let s1 := { s with x := x1, y := y1, segments := segs1 }
  if s.boosting = true ∧ MIN_SEGMENTS_FOR_BOOST < s.size then
    let s2 := { s1 with size := s1.size - BOOST_CONSUMPTION }
    if dropRoll then
      let lastSegment := segs1.getLastD ⟨0, 0, 0⟩
      (s2, some ⟨lastSegment.x, lastSegment.y⟩)
    else (finishUpdate s2, none)
  else (finishUpdate s1, none)

open scoped Classical in
/-- NPC.handleBoosting (npc.js lines 257-267): force-clear boosting at or
below the minimum size, then a random stop (the Math.random() < 0.02 roll is
the randStop sample). -/
noncomputable def handleBoosting (randStop : Bool) (s : SnakeS) : SnakeS :=
  let s1 := if s.size ≤ MIN_SEGMENTS_FOR_BOOST then { s with boosting := false } else s
  if s1.boosting = true ∧ randStop = true then { s1 with boosting := false } else s1

/-- NPC.update (npc.js lines 48-80).  The decision phases before
handleBoosting (makeDecision, updateTargetAngle, heading smoothing, npc.js
lines 50-63) mutate only the AI fields, the heading and possibly the boosting
flag, and never the size; their combined effect is modelled by the arbitrary
values aiBoost and aiAngle.  Then handleBoosting runs (line 66), and finally
super.update() (line 79). -/
noncomputable def npcUpdateCore (aiBoost : Bool) (aiAngle : ℝ) (randStop dropRoll : Bool)
    (s : SnakeS) : SnakeS × Option DeathFoodS :=
  updateSnake dropRoll (handleBoosting randStop { s with boosting := aiBoost, angle := aiAngle })

/-- Player.update (npc.js lines 394-412): computes a target heading from the
mouse and smooths the heading (modelled by the arbitrary resulting steerAngle),
then calls super.update().  It contains no boosting logic: the boost flag is
set and cleared only by the mousedown/mouseup listeners (npc.js lines 377-386). -/
noncomputable def playerUpdateCore (steerAngle : ℝ) (dropRoll : Bool)
    (s : SnakeS) : SnakeS × Option DeathFoodS :=
  updateSnake dropRoll { s with angle := steerAngle }

/-- The food-count draw of Snake.die (snake.js lines 295-298):
randomInt(DEATH_FOOD.MIN_COUNT, min(DEATH_FOOD.MAX_COUNT, size)). -/
noncomputable def dieCount (sample : ℝ) (size : ℝ) : ℤ :=
  Utils.randomInt sample DEATH_MIN_COUNT (min DEATH_MAX_COUNT size)

/-- Snake.die (snake.js lines 293-319).  sample is the Math.random() draw of
the food-count; u i and v i are the Math.random() draws for the i-th item's
scatter angle (random(0, 2π)) and distance (random(0, SPREAD_RADIUS)).
Returns the DeathFood batch and the snake, which is marked for deletion. -/
noncomputable def dieSnake (sample : ℝ) (u v : ℕ → ℝ) (s : SnakeS) :
    List DeathFoodS × SnakeS :=
  let foodCount := dieCount sample s.size
  let items := (List.range foodCount.toNat).map (fun (i : ℕ) =>
    let segmentIndex := (⌊(i : ℝ) * (s.segments.length : ℝ) / (foodCount : ℝ)⌋).toNat
    let segment := s.segments.getD segmentIndex ⟨0, 0, 0⟩
    let ang := Utils.random (u i) 0 (2 * Real.pi)
    let dist := Utils.random (v i) 0 SPREAD_RADIUS
    (⟨segment.x + Real.cos ang * dist, segment.y + Real.sin ang * dist⟩ : DeathFoodS))
  (items, { s with markedForDeletion := true })

/-! ## Collision resolution (src/js/collision.js, snake.js predicates) -/

/-- this.segments[0], the head circle. -/
noncomputable def headSeg (s : SnakeS) : Circle :=
  s.segments.headD ⟨0, 0, 0⟩

/-- Snake.isCollidingWithSnake (snake.js lines 254-274): this snake's head
against every non-head segment of the other (the loop skips index 0); the
this === other reference guard becomes an id guard. -/
noncomputable def isCollidingWithSnake (self other : SnakeS) : Prop :=
  self.id ≠ other.id ∧ ∃ seg ∈ other.segments.tail, Utils.circleCollision (headSeg self) seg

/-- Snake.isHeadCollidingWithHead (snake.js lines 281-287). -/
noncomputable def isHeadCollidingWithHead (self other : SnakeS) : Prop :=
  self.id ≠ other.id ∧ Utils.circleCollision (headSeg self) (headSeg other)

/-- The flag effect of Snake.die (snake.js line 316).  die() additionally
returns a DeathFood batch (modelled by dieSnake above); within a collision
pass that batch is only appended to the pending newEntities list and never
feeds back into the pass, so the pass embeddings below track the flags. -/
def dieFlag (s : SnakeS) : SnakeS :=
  { s with markedForDeletion := true }

open scoped Classical in
/-- The entity loop of CollisionSystem.checkPlayerSnakeCollisions
(collision.js lines 98-137).  The entity list carries the snake-typed
entities; food entities are skipped by the type test on line 100 and cannot
affect any snake flag.  Returns the final player state and entity list. -/
noncomputable def cpscLoop (player : SnakeS) : List SnakeS → SnakeS × List SnakeS
  | [] => (player, [])
  | e :: rest =>
    if e.id = player.id ∨ e.markedForDeletion = true then
      let out := cpscLoop player rest
      (out.1, e :: out.2)
    else if isCollidingWithSnake player e then
      (dieFlag player, e :: rest)
    else
      let pe := if isCollidingWithSnake e player
        then (dieFlag e, { player with killedNPCs := player.killedNPCs + 1 })
        else (e, player)
      if isHeadCollidingWithHead player e then
        (if player.size < e.size then
          (dieFlag pe.2, pe.1 :: rest)
        else
          let p2 := { pe.2 with killedNPCs := pe.2.killedNPCs + 1 }
          let out := cpscLoop p2 rest
          (out.1, dieFlag pe.1 :: out.2))
      else
        let out := cpscLoop pe.2 rest
        (out.1, pe.1 :: out.2)

open scoped Classical in
/-- CollisionSystem.checkPlayerSnakeCollisions (collision.js lines 94-138),
including the early return when the player is already dead (line 96). -/
noncomputable def checkPlayerSnakeCollisions (player : SnakeS) (entities : List SnakeS) :
    SnakeS × List SnakeS :=
  if player.markedForDeletion = true then (player, entities) else cpscLoop player entities

open scoped Classical in
/-- The inner j-loop of the NPC-NPC part of checkNPCCollisions (collision.js
lines 174-215), for a fixed npc1 against the snakes after it; break ends the
fold, continue recurses. -/
noncomputable def npcInnerLoop (npc1 : SnakeS) : List SnakeS → SnakeS × List SnakeS
  | [] => (npc1, [])
  | npc2 :: rest =>
    if npc2.markedForDeletion = true then
      let out := npcInnerLoop npc1 rest
      (out.1, npc2 :: out.2)
    else if isCollidingWithSnake npc1 npc2 then
      (dieFlag npc1, npc2 :: rest)
    else if isCollidingWithSnake npc2 npc1 then
      let out := npcInnerLoop npc1 rest
      (out.1, dieFlag npc2 :: out.2)
    else if isHeadCollidingWithHead npc1 npc2 then
      (if npc1.size < npc2.size then
        (dieFlag npc1, npc2 :: rest)
      else if npc2.size < npc1.size then
        let out := npcInnerLoop npc1 rest
        (out.1, dieFlag npc2 :: out.2)
      else
        (dieFlag npc1, dieFlag npc2 :: rest))
    else
      let out := npcInnerLoop npc1 rest
      (out.1, npc2 :: out.2)

open scoped Classical in
/-- The outer i-loop of the NPC-NPC part of checkNPCCollisions (collision.js
lines 168-216): each npc1 in turn (skipped if already flagged, line 172)
against the snakes after it, which the inner loop may have updated.  The inner
loop rewrites elements in place, so its output list has the length of its
input; the fuel (the length of the original list) is therefore never
exhausted — it only makes the recursion on the rewritten tail, which is not a
structural subterm, well-founded. -/
noncomputable def npcOuterLoopAux : ℕ → List SnakeS → List SnakeS
  | 0, l => l
  | _+1, [] => []
  | fuel+1, npc1 :: rest =>
    if npc1.markedForDeletion = true then npc1 :: npcOuterLoopAux fuel rest
    else
      let out := npcInnerLoop npc1 rest
      out.1 :: npcOuterLoopAux fuel out.2

noncomputable def npcOuterLoop (npcs : List SnakeS) : List SnakeS :=
  npcOuterLoopAux npcs.length npcs

/-- The NPC-NPC part of CollisionSystem.checkNPCCollisions (collision.js
lines 145-217): npcs := the unflagged snake entities (line 146; the list here
carries the npc-typed entities), then the pairwise double loop.  The NPC-food
loop (lines 149-165) touches no snake flag and is modelled separately from
these claims. -/
noncomputable def checkNPCCollisions (entities : List SnakeS) : List SnakeS :=
  npcOuterLoop (entities.filter (fun e => !e.markedForDeletion))

/-! ## Orchestrator tick tail (src/js/gameState.js) -/

/-- Entity as the orchestrator sees it: the deletion flag (entity.js line 16)
plus the type tag distinguishing NPCs (for maintainNPCCount's census) and an
id.  All other payload is irrelevant to compaction. -/
structure Ent where
  eid : ℕ
  isNpc : Bool
  markedForDeletion : Bool
deriving DecidableEq, Repr

/-- new Food(...): the Entity constructor sets markedForDeletion = false
(entity.js line 16; food.js line 12). -/
def mkFood (eid : ℕ) : Ent := ⟨eid, false, false⟩

/-- new NPC(...): likewise constructed unflagged (entity.js line 16). -/
def mkNPC (eid : ℕ) : Ent := ⟨eid, true, false⟩

/-- The tail of GameState.update from compaction onward (gameState.js lines
149-162 plus maintainNPCCount lines 168-215).  Everything before line 150
(index rebuild, player/NPC/food updates, collision resolution and the
newEntities append on line 147) only produces the pre-compaction entity list,
over which the compaction claim quantifies, so that list is the input here.
Line 150 is the single filter pass; spawnFood (lines 103-117) pushes one fresh
Food when the counter reaches the spawn rate; maintainNPCCount tops the NPC
census up to the difficulty target with fresh NPCs. -/
def gameStateTickTail (entitiesAfterCollisions : List Ent)
    (spawnCounter spawnRate targetCount newFoodId : ℕ) (npcIds : ℕ → ℕ) : List Ent :=
  let compacted := entitiesAfterCollisions.filter (fun e => !e.markedForDeletion)
  let afterFood := if spawnRate ≤ spawnCounter + 1 then compacted ++ [mkFood newFoodId] else compacted
  let npcCount := (afterFood.filter (fun e => e.isNpc)).length
  afterFood ++ (List.range (targetCount - npcCount)).map (fun i => mkNPC (npcIds i))

/-! ## Concrete instances used by witnesses and counterexamples -/

/-- A live two-segment snake (head plus one body segment) with the
configuration's radii, used to instantiate the collision-pass claims at
concrete inputs. -/
noncomputable def testSnake (i : ℕ) (sz hx hy tx ty : ℝ) : SnakeS :=
  { id := i, x := hx, y := hy, radius := 10, angle := 0, speed := 3, size := sz,
    segments := [⟨hx, hy, 10⟩, ⟨tx, ty, 9⟩], segmentSpacing := 5, boosting := false,
    markedForDeletion := false, killedNPCs := 0, score := sz, maxScore := sz }

/-- Striker: its head at the origin overlaps npcB's body segment at (5, 0). -/
noncomputable def npcA : SnakeS := testSnake 1 10 0 0 (-5) 0

/-- Struck snake: its head at (100, 100) is far from npcA. -/
noncomputable def npcB : SnakeS := testSnake 2 10 100 100 5 0

/-- Head-to-head pair of equal size: heads at (0,0) and (5,0) overlap, body
segments far apart. -/
noncomputable def npcC : SnakeS := testSnake 3 10 0 0 300 300

noncomputable def npcD : SnakeS := testSnake 4 10 5 0 400 400

/-- Player and NPC for the player-side head-to-head tie. -/
noncomputable def playerP : SnakeS := testSnake 10 10 0 0 300 300

noncomputable def npcE : SnakeS := testSnake 11 10 5 0 400 400

/-- Unequal-size head-to-head pair. -/
noncomputable def npcF : SnakeS := testSnake 5 8 0 0 300 300

noncomputable def npcG : SnakeS := testSnake 6 12 5 0 400 400

/-- A boosting snake of size 12 with six coincident segments, exactly the
ideal count max(5, floor(12/2)) = 6; the failing input for the segment-count
invariant (a boost food-drop tick). -/
noncomputable def boostSnake : SnakeS :=
  { id := 20, x := 0, y := 0, radius := 10, angle := 0, speed := 3, size := 12,
    segments := [⟨0, 0, 10⟩, ⟨0, 0, 9⟩, ⟨0, 0, 9⟩, ⟨0, 0, 9⟩, ⟨0, 0, 9⟩, ⟨0, 0, 9⟩],
    segmentSpacing := 5, boosting := true, markedForDeletion := false,
    killedNPCs := 0, score := 12, maxScore := 12 }

/-- A boosting player at exactly the minimum-boost size. -/
noncomputable def playerAtMin : SnakeS :=
  { testSnake 30 5 0 0 (-5) 0 with boosting := true }

/-- A boosting NPC below the minimum-boost size. -/
noncomputable def npcAtMin : SnakeS :=
  { testSnake 31 4 0 0 (-5) 0 with boosting := true }

/-- Snakes whose sizes instantiate the death-food count claim. -/
noncomputable def die5Snake : SnakeS := testSnake 40 5 0 0 (-5) 0

noncomputable def die20Snake : SnakeS := testSnake 41 20 0 0 (-5) 0

/-! ## Theorems -/

/-! ### C8: circle-collision symmetry and tangency strictness -/

theorem distance_comm (a b : Circle) : Utils.distance a b = Utils.distance b a := by
  unfold Utils.distance
  congr 1
  ring

/-- Claim C8: circleCollision is symmetric, and circles whose center distance
equals the radius sum exactly (tangent circles) do not collide, because the
predicate uses strict inequality. -/
theorem C8_circleCollision_symm_strict :
    (∀ a b : Circle, Utils.circleCollision a b ↔ Utils.circleCollision b a) ∧
    (∀ a b : Circle, Utils.distance a b = a.radius + b.radius →
      ¬ Utils.circleCollision a b) := by
  constructor
  · intro a b
    unfold Utils.circleCollision
    rw [distance_comm, add_comm]
  · intro a b h hc
    unfold Utils.circleCollision at hc
    rw [h] at hc
    exact lt_irrefl _ hc

/-- Witness for C8 at the tangent pair (0,0,r=1) and (3,0,r=2). -/
theorem C8_witness :
    Utils.distance ⟨0, 0, 1⟩ ⟨3, 0, 2⟩ = (1 : ℝ) + 2 ∧
    ¬ Utils.circleCollision ⟨0, 0, 1⟩ ⟨3, 0, 2⟩ := by
  have hd : Utils.distance ⟨0, 0, 1⟩ ⟨3, 0, 2⟩ = (1 : ℝ) + 2 := by
    unfold Utils.distance
    norm_num
    rw [show (9 : ℝ) = 3 ^ 2 by norm_num, Real.sqrt_sq (by norm_num : (0:ℝ) ≤ 3)]
  exact ⟨hd, C8_circleCollision_symm_strict.2 _ _ hd⟩

/-! ### C7: toroidal wrap idempotence -/

theorem wrapPoint_eq_of_inside (p : PointQ) (h : isInsideWorld p) : wrapPoint p = p := by
  obtain ⟨hx0, hxW, hy0, hyW⟩ := h
  simp only [wrapPoint]
  split_ifs <;> first | rfl | (exfalso; linarith)

theorem wrapPoint_inside_of_near (p : PointQ) (h1 : -WORLD_WIDTH ≤ p.x)
    (h2 : p.x < 2 * WORLD_WIDTH) (h3 : -WORLD_HEIGHT ≤ p.y)
    (h4 : p.y < 2 * WORLD_HEIGHT) : isInsideWorld (wrapPoint p) := by
  have hW : (0 : ℚ) < WORLD_WIDTH := by norm_num [WORLD_WIDTH]
  have hH : (0 : ℚ) < WORLD_HEIGHT := by norm_num [WORLD_HEIGHT]
  simp only [wrapPoint, isInsideWorld]
  split_ifs <;> refine ⟨by linarith, by linarith, by linarith, by linarith⟩

theorem jsTrunc_eq_floor (q : ℚ) (h : 0 ≤ q) : jsTrunc q = ⌊q⌋ := if_pos h

theorem snakeWrapX_mem (x : ℚ) (h : -WORLD_WIDTH ≤ x) :
    0 ≤ snakeWrapX x ∧ snakeWrapX x < WORLD_WIDTH := by
  have hW : (0 : ℚ) < WORLD_WIDTH := by norm_num [WORLD_WIDTH]
  have ha : (0 : ℚ) ≤ x + WORLD_WIDTH := by linarith
  have hq : 0 ≤ (x + WORLD_WIDTH) / WORLD_WIDTH := div_nonneg ha hW.le
  unfold snakeWrapX jsMod
  rw [jsTrunc_eq_floor _ hq]
  have h1 : ((⌊(x + WORLD_WIDTH) / WORLD_WIDTH⌋ : ℚ)) ≤ (x + WORLD_WIDTH) / WORLD_WIDTH :=
    Int.floor_le _
  have h2 : (x + WORLD_WIDTH) / WORLD_WIDTH < (⌊(x + WORLD_WIDTH) / WORLD_WIDTH⌋ : ℚ) + 1 :=
    Int.lt_floor_add_one _
  have h1' : WORLD_WIDTH * (⌊(x + WORLD_WIDTH) / WORLD_WIDTH⌋ : ℚ) ≤ x + WORLD_WIDTH := by
    rw [mul_comm]
    exact (le_div_iff₀ hW).mp h1
  have h2' : x + WORLD_WIDTH <
      WORLD_WIDTH * ((⌊(x + WORLD_WIDTH) / WORLD_WIDTH⌋ : ℚ) + 1) := by
    rw [mul_comm]
    exact (div_lt_iff₀ hW).mp h2
  rw [mul_add, mul_one] at h2'
  constructor <;> linarith

theorem snakeWrapX_eq_of_mem (x : ℚ) (h0 : 0 ≤ x) (h1 : x < WORLD_WIDTH) :
    snakeWrapX x = x := by
  have hW : (0 : ℚ) < WORLD_WIDTH := by norm_num [WORLD_WIDTH]
  have hfloor : ⌊(x + WORLD_WIDTH) / WORLD_WIDTH⌋ = 1 := by
    rw [Int.floor_eq_iff]
    constructor
    · rw [le_div_iff₀ hW]
      push_cast
      linarith
    · rw [div_lt_iff₀ hW]
      push_cast
      linarith
  have hq : 0 ≤ (x + WORLD_WIDTH) / WORLD_WIDTH :=
    div_nonneg (by linarith) hW.le
  unfold snakeWrapX jsMod
  rw [jsTrunc_eq_floor _ hq, hfloor]
  push_cast
  ring

/-- Claim C7 counterexample: wrapPoint is not idempotent on points more than
one world-size outside the world ((-6000,0) wraps to (-1000,0), which wraps
again to (4000,0)); likewise the (x + W) % W wrap of Snake.update for
x = -12000. -/
theorem C7_counterexample :
    wrapPoint (wrapPoint ⟨-6000, 0⟩) ≠ wrapPoint ⟨-6000, 0⟩ ∧
    snakeWrapX (snakeWrapX (-12000)) ≠ snakeWrapX (-12000) := by
  have h1 : wrapPoint ⟨-6000, 0⟩ = ⟨-1000, 0⟩ := by
    norm_num [wrapPoint, WORLD_WIDTH, WORLD_HEIGHT]
  have h2 : wrapPoint ⟨-1000, 0⟩ = ⟨4000, 0⟩ := by
    norm_num [wrapPoint, WORLD_WIDTH, WORLD_HEIGHT]
  have hceil : (⌈-(7 / 5 : ℚ)⌉ : ℤ) = -1 := by
    rw [Int.ceil_eq_iff]
    norm_num
  have h3 : snakeWrapX (-12000) = -2000 := by
    norm_num [snakeWrapX, jsMod, jsTrunc, WORLD_WIDTH, hceil]
  have h4 : snakeWrapX (-2000) = 3000 := by
    norm_num [snakeWrapX, jsMod, jsTrunc, WORLD_WIDTH]
  constructor
  · rw [h1, h2]
    simp only [ne_eq, PointQ.mk.injEq]
    norm_num
  · rw [h3, h4]
    norm_num

/-- Claim C7 (amended): wrapping is idempotent for positions within one
world-size of the bounds (all positions the per-tick motion can produce), and
wrapping an in-bounds point is a no-op; idempotence for arbitrarily far
positions fails (see the counterexample). -/
theorem C7_wrap_idempotent_near :
    (∀ p : PointQ, -WORLD_WIDTH ≤ p.x → p.x < 2 * WORLD_WIDTH → -WORLD_HEIGHT ≤ p.y →
      p.y < 2 * WORLD_HEIGHT → wrapPoint (wrapPoint p) = wrapPoint p) ∧
    (∀ p : PointQ, isInsideWorld p → wrapPoint p = p) ∧
    (∀ x : ℚ, -WORLD_WIDTH ≤ x → snakeWrapX (snakeWrapX x) = snakeWrapX x) ∧
    (∀ x : ℚ, 0 ≤ x → x < WORLD_WIDTH → snakeWrapX x = x) := by
  refine ⟨?_, wrapPoint_eq_of_inside, ?_, snakeWrapX_eq_of_mem⟩
  · intro p h1 h2 h3 h4
    exact wrapPoint_eq_of_inside _ (wrapPoint_inside_of_near p h1 h2 h3 h4)
  · intro x h
    obtain ⟨h0, h1⟩ := snakeWrapX_mem x h
    exact snakeWrapX_eq_of_mem _ h0 h1

/-- Witness for C7 at concrete points. -/
theorem C7_witness :
    wrapPoint (wrapPoint ⟨-1, 6000⟩) = wrapPoint ⟨-1, 6000⟩ ∧
    wrapPoint ⟨4999, 1⟩ = ⟨4999, 1⟩ ∧
    snakeWrapX (snakeWrapX (-2)) = snakeWrapX (-2) ∧
    snakeWrapX 17 = 17 := by
  refine ⟨C7_wrap_idempotent_near.1 _ (by norm_num [WORLD_WIDTH]) (by norm_num [WORLD_WIDTH])
      (by norm_num [WORLD_HEIGHT]) (by norm_num [WORLD_HEIGHT]),
    C7_wrap_idempotent_near.2.1 _ (by norm_num [isInsideWorld, WORLD_WIDTH, WORLD_HEIGHT]),
    C7_wrap_idempotent_near.2.2.1 _ (by norm_num [WORLD_WIDTH]),
    C7_wrap_idempotent_near.2.2.2 _ (by norm_num) (by norm_num [WORLD_WIDTH])⟩

/-! ### C9: compaction completeness -/

/-- Claim C9: when the orchestrator tick returns, the live collection holds no
entity flagged for deletion (the end-of-tick filter removed every flagged
entity, and entities pushed after it are constructor-fresh and unflagged), and
every unflagged entity present before compaction is retained. -/
theorem C9_compaction :
    ∀ (pre : List Ent) (spawnCounter spawnRate targetCount newFoodId : ℕ) (npcIds : ℕ → ℕ),
      (∀ e ∈ gameStateTickTail pre spawnCounter spawnRate targetCount newFoodId npcIds,
        e.markedForDeletion = false) ∧
      (∀ e ∈ pre, e.markedForDeletion = false →
        e ∈ gameStateTickTail pre spawnCounter spawnRate targetCount newFoodId npcIds) := by
  intro pre c r t f ids
  constructor
  · intro e he
    simp only [gameStateTickTail, List.mem_append] at he
    rcases he with he | he
    · split at he
      · rcases List.mem_append.mp he with hc | hc
        · simpa using (List.mem_filter.mp hc).2
        · simp only [List.mem_singleton] at hc
          subst hc
          rfl
      · simpa using (List.mem_filter.mp he).2
    · obtain ⟨i, _, rfl⟩ := List.mem_map.mp he
      rfl
  · intro e he hf
    have hc : e ∈ pre.filter (fun e => !e.markedForDeletion) :=
      List.mem_filter.mpr ⟨he, by simp [hf]⟩
    simp only [gameStateTickTail, List.mem_append]
    left
    split
    · exact List.mem_append.mpr (Or.inl hc)
    · exact hc

/-- Witness for C9: a flagged and an unflagged entity through one concrete
tick tail. -/
theorem C9_witness :
    ((⟨1, true, false⟩ : Ent) ∈
      gameStateTickTail [⟨0, false, true⟩, ⟨1, true, false⟩] 0 1 2 7 (fun i => 10 + i)) ∧
    (⟨0, false, true⟩ : Ent) ∉
      gameStateTickTail [⟨0, false, true⟩, ⟨1, true, false⟩] 0 1 2 7 (fun i => 10 + i) := by
  constructor
  · exact (C9_compaction _ 0 1 2 7 _).2 ⟨1, true, false⟩ (by simp) rfl
  · intro hmem
    have hno := (C9_compaction [⟨0, false, true⟩, ⟨1, true, false⟩] 0 1 2 7
      (fun i => 10 + i)).1 _ hmem
    simp at hno

/-! ### C6: death-food count bounds -/

theorem dieSnake_length (sample : ℝ) (u v : ℕ → ℝ) (s : SnakeS) :
    (dieSnake sample u v s).1.length = (dieCount sample s.size).toNat := by
  simp [dieSnake]

/-- Claim C6 counterexample: on a snake of size 5 (below MIN_COUNT = 10) with
food-count sample 1/2, die() returns 8 DeathFood items — outside the claimed
interval [MIN_COUNT, min(MAX_COUNT, 5)], and below MIN_COUNT. -/
theorem C6_counterexample :
    (0 : ℝ) ≤ 1 / 2 ∧ (1 / 2 : ℝ) < 1 ∧ die5Snake.size < DEATH_MIN_COUNT ∧
    (dieSnake (1 / 2) (fun _ => 0) (fun _ => 0) die5Snake).1.length = 8 ∧
    ¬(DEATH_MIN_COUNT ≤
        ((dieSnake (1 / 2) (fun _ => 0) (fun _ => 0) die5Snake).1.length : ℝ) ∧
      ((dieSnake (1 / 2) (fun _ => 0) (fun _ => 0) die5Snake).1.length : ℝ) ≤
        min DEATH_MAX_COUNT die5Snake.size) := by
  have hsize : die5Snake.size = 5 := rfl
  have hc : dieCount (1 / 2) die5Snake.size = 8 := by
    unfold dieCount Utils.randomInt Utils.random DEATH_MIN_COUNT DEATH_MAX_COUNT
    rw [hsize, show min (50 : ℝ) 5 = 5 from by norm_num]
    norm_num
  have hlen : (dieSnake (1 / 2) (fun _ => 0) (fun _ => 0) die5Snake).1.length = 8 := by
    rw [dieSnake_length, hc]
    rfl
  refine ⟨by norm_num, by norm_num, by rw [hsize]; norm_num [DEATH_MIN_COUNT], hlen, ?_⟩
  rw [hlen]
  rintro ⟨hlo, -⟩
  norm_num [DEATH_MIN_COUNT] at hlo

/-- Claim C6 (amended): on a snake whose capped size min(MAX_COUNT, S) is an
integer at least MIN_COUNT (in particular any integer size S ≥ MIN_COUNT),
die() returns between MIN_COUNT and min(MAX_COUNT, S) DeathFood items and
flags the snake destroyed; the flag is set for every size, but for
S < MIN_COUNT (or fractional caps) the count can leave the claimed interval
(see the counterexample). -/
theorem C6_die_count_bounds :
    ∀ (s : SnakeS) (sample : ℝ) (u v : ℕ → ℝ) (m : ℤ),
      0 ≤ sample → sample < 1 → min DEATH_MAX_COUNT s.size = (m : ℝ) → 10 ≤ m →
      (DEATH_MIN_COUNT ≤ ((dieSnake sample u v s).1.length : ℝ) ∧
       ((dieSnake sample u v s).1.length : ℝ) ≤ min DEATH_MAX_COUNT s.size ∧
       (dieSnake sample u v s).2.markedForDeletion = true) := by
  intro s sample u v m h0 h1 hm hm10
  have hm' : (10 : ℝ) ≤ (m : ℝ) := by exact_mod_cast hm10
  have h9 : (0 : ℝ) ≤ (m : ℝ) + 1 - 10 := by linarith
  have hcount : dieCount sample s.size = ⌊sample * ((m : ℝ) + 1 - 10) + 10⌋ := by
    unfold dieCount Utils.randomInt Utils.random DEATH_MIN_COUNT
    rw [hm]
  have hlo : (10 : ℤ) ≤ dieCount sample s.size := by
    rw [hcount]
    apply Int.le_floor.mpr
    push_cast
    nlinarith [mul_nonneg h0 h9]
  have hhi : dieCount sample s.size ≤ m := by
    rw [hcount]
    have hlt : ⌊sample * ((m : ℝ) + 1 - 10) + 10⌋ < m + 1 := by
      apply Int.floor_lt.mpr
      push_cast
      nlinarith [mul_lt_of_lt_one_left (show (0:ℝ) < (m:ℝ) + 1 - 10 by linarith) h1]
    omega
  have hnn : (0 : ℤ) ≤ dieCount sample s.size := le_trans (by norm_num) hlo
  refine ⟨?_, ?_, by simp [dieSnake]⟩
  · rw [dieSnake_length]
    unfold DEATH_MIN_COUNT
    have h10 : (10 : ℕ) ≤ (dieCount sample s.size).toNat := by omega
    exact_mod_cast h10
  · rw [dieSnake_length, hm]
    have hle2 : (((dieCount sample s.size).toNat : ℕ) : ℤ) ≤ m := by omega
    exact_mod_cast hle2

/-- Witness for C6 on a size-20 snake with sample 1/2. -/
theorem C6_witness :
    (min DEATH_MAX_COUNT die20Snake.size = ((20 : ℤ) : ℝ)) ∧
    DEATH_MIN_COUNT ≤ ((dieSnake (1 / 2) (fun _ => 0) (fun _ => 0) die20Snake).1.length : ℝ) ∧
    ((dieSnake (1 / 2) (fun _ => 0) (fun _ => 0) die20Snake).1.length : ℝ) ≤
      min DEATH_MAX_COUNT die20Snake.size ∧
    (dieSnake (1 / 2) (fun _ => 0) (fun _ => 0) die20Snake).2.markedForDeletion = true := by
  have hmin : min DEATH_MAX_COUNT die20Snake.size = ((20 : ℤ) : ℝ) := by
    show min (50 : ℝ) (20 : ℝ) = _
    norm_num
  exact ⟨hmin, C6_die_count_bounds die20Snake (1 / 2) _ _ 20 (by norm_num) (by norm_num)
    hmin (by norm_num)⟩

/-! ### C1, C10: quadtree broad-phase soundness and no duplicates -/

namespace QTree

theorem getIndex_mem (bb r : Box) :
    getIndex bb r = -1 ∨ getIndex bb r = 0 ∨ getIndex bb r = 1 ∨
    getIndex bb r = 2 ∨ getIndex bb r = 3 := by
  simp only [getIndex]
  split_ifs <;> simp

theorem left_of_getIndex (bb r : Box) (h : getIndex bb r = 1 ∨ getIndex bb r = 2) :
    r.x + r.width < bb.x + bb.width / 2 := by
  simp only [getIndex] at h
  split_ifs at h with h1 h2 h3 h4 h5 h6
  all_goals first
    | exact h1.2
    | (rcases h with h | h <;> exact absurd h (by decide))

theorem right_of_getIndex (bb r : Box) (h : getIndex bb r = 0 ∨ getIndex bb r = 3) :
    bb.x + bb.width / 2 < r.x := by
  simp only [getIndex] at h
  split_ifs at h with h1 h2 h3 h4 h5 h6
  all_goals first
    | exact h4
    | (rcases h with h | h <;> exact absurd h (by decide))

theorem top_of_getIndex (bb r : Box) (h : getIndex bb r = 0 ∨ getIndex bb r = 1) :
    r.y + r.height < bb.y + bb.height / 2 := by
  simp only [getIndex] at h
  split_ifs at h with h1 h2 h3 h4 h5 h6
  all_goals first
    | exact h2.2
    | exact h5.2
    | (rcases h with h | h <;> exact absurd h (by decide))

theorem bottom_of_getIndex (bb r : Box) (h : getIndex bb r = 2 ∨ getIndex bb r = 3) :
    bb.y + bb.height / 2 < r.y := by
  simp only [getIndex] at h
  split_ifs at h with h1 h2 h3 h4 h5 h6
  all_goals first
    | exact h3
    | exact h6
    | (rcases h with h | h <;> exact absurd h (by decide))

end QTree

theorem not_rectIntersect_of_x_lt (a b : Box) (h : b.x + b.width < a.x) :
    ¬ rectIntersect a b :=
  fun hr => absurd hr.1 (not_le.mpr h)

theorem not_rectIntersect_of_x_gt (a b : Box) (h : a.x + a.width < b.x) :
    ¬ rectIntersect a b :=
  fun hr => absurd hr.2.1 (not_le.mpr h)

theorem not_rectIntersect_of_y_lt (a b : Box) (h : b.y + b.height < a.y) :
    ¬ rectIntersect a b :=
  fun hr => absurd hr.2.2.1 (not_le.mpr h)

theorem not_rectIntersect_of_y_gt (a b : Box) (h : a.y + a.height < b.y) :
    ¬ rectIntersect a b :=
  fun hr => absurd hr.2.2.2 (not_le.mpr h)

/-- Two boxes assigned to different child quadrants of the same node cannot
geometrically intersect: this is what makes retrieve's single-child descent
sound. -/
theorem right0 (bb r : Box) (h : getIndex bb r = 0) : bb.x + bb.width / 2 < r.x :=
  QTree.right_of_getIndex bb r (Or.inl h)

theorem right3 (bb r : Box) (h : getIndex bb r = 3) : bb.x + bb.width / 2 < r.x :=
  QTree.right_of_getIndex bb r (Or.inr h)

theorem left1 (bb r : Box) (h : getIndex bb r = 1) : r.x + r.width < bb.x + bb.width / 2 :=
  QTree.left_of_getIndex bb r (Or.inl h)

theorem left2 (bb r : Box) (h : getIndex bb r = 2) : r.x + r.width < bb.x + bb.width / 2 :=
  QTree.left_of_getIndex bb r (Or.inr h)

theorem top0 (bb r : Box) (h : getIndex bb r = 0) : r.y + r.height < bb.y + bb.height / 2 :=
  QTree.top_of_getIndex bb r (Or.inl h)

theorem top1 (bb r : Box) (h : getIndex bb r = 1) : r.y + r.height < bb.y + bb.height / 2 :=
  QTree.top_of_getIndex bb r (Or.inr h)

theorem bottom2 (bb r : Box) (h : getIndex bb r = 2) : bb.y + bb.height / 2 < r.y :=
  QTree.bottom_of_getIndex bb r (Or.inl h)

theorem bottom3 (bb r : Box) (h : getIndex bb r = 3) : bb.y + bb.height / 2 < r.y :=
  QTree.bottom_of_getIndex bb r (Or.inr h)

theorem getIndex_separation (bb a b : Box) (ha : getIndex bb a ≠ -1)
    (hb : getIndex bb b ≠ -1) (hne : getIndex bb a ≠ getIndex bb b) :
    ¬ rectIntersect a b := by
  rcases QTree.getIndex_mem bb a with ha' | ha' | ha' | ha' | ha' <;>
    rcases QTree.getIndex_mem bb b with hb' | hb' | hb' | hb' | hb'
  all_goals first
    | exact absurd ha' ha
    | exact absurd hb' hb
    | (rw [ha', hb'] at hne; exact absurd rfl hne)
    | exact not_rectIntersect_of_x_lt a b (lt_trans (left1 bb b hb') (right0 bb a ha'))
    | exact not_rectIntersect_of_x_lt a b (lt_trans (left2 bb b hb') (right0 bb a ha'))
    | exact not_rectIntersect_of_x_lt a b (lt_trans (left1 bb b hb') (right3 bb a ha'))
    | exact not_rectIntersect_of_x_lt a b (lt_trans (left2 bb b hb') (right3 bb a ha'))
    | exact not_rectIntersect_of_x_gt a b (lt_trans (left1 bb a ha') (right0 bb b hb'))
    | exact not_rectIntersect_of_x_gt a b (lt_trans (left2 bb a ha') (right0 bb b hb'))
    | exact not_rectIntersect_of_x_gt a b (lt_trans (left1 bb a ha') (right3 bb b hb'))
    | exact not_rectIntersect_of_x_gt a b (lt_trans (left2 bb a ha') (right3 bb b hb'))
    | exact not_rectIntersect_of_y_gt a b (lt_trans (top0 bb a ha') (bottom3 bb b hb'))
    | exact not_rectIntersect_of_y_gt a b (lt_trans (top1 bb a ha') (bottom2 bb b hb'))
    | exact not_rectIntersect_of_y_lt a b (lt_trans (top0 bb b hb') (bottom3 bb a ha'))
    | exact not_rectIntersect_of_y_lt a b (lt_trans (top1 bb b hb') (bottom2 bb a ha'))

namespace QTree

theorem perm_cons_out {α : Type _} {l₁ l₂ : List α} (o : α) (h : List.Perm l₁ (o :: l₂))
    (pre : List α) : List.Perm (pre ++ l₁) (o :: (pre ++ l₂)) :=
  (h.append_left pre).trans List.perm_middle

theorem pushObj_all (t : QTree) (b : Box) :
    List.Perm (getAllObjects (pushObj t b)) (b :: getAllObjects t) := by
  cases t with
  | leaf bb lv objs =>
      simp only [pushObj, getAllObjects]
      exact List.perm_append_singleton b objs
  | node bb lv objs c0 c1 c2 c3 =>
      simp only [pushObj, getAllObjects, List.append_assoc, List.singleton_append]
      exact List.perm_middle

theorem redist_foldl_all (fuel : ℕ) (bb : Box)
    (ih : ∀ (t : QTree) (b : Box),
      List.Perm (getAllObjects (insertAux fuel t b)) (b :: getAllObjects t)) :
    ∀ (objs : List Box) (st : RState),
      List.Perm (objs.foldl (redistStep (insertAux fuel) bb) st).allObjects
        (objs ++ st.allObjects) := by
  intro objs
  induction objs with
  | nil => intro st; simp
  | cons o objs ih2 =>
      intro st
      have hstep : List.Perm (redistStep (insertAux fuel) bb st o).allObjects
          (o :: st.allObjects) := by
        simp only [redistStep]
        split_ifs <;>
          simp only [RState.allObjects, List.append_assoc, List.singleton_append] <;>
          first
            | exact List.perm_middle
            | exact perm_cons_out _ ((ih _ _).append_right _) _
            | exact perm_cons_out _ (perm_cons_out _ ((ih _ _).append_right _) _) _
            | exact perm_cons_out _
                (perm_cons_out _ (perm_cons_out _ ((ih _ _).append_right _) _) _) _
            | exact perm_cons_out _ (perm_cons_out _
                (perm_cons_out _ (perm_cons_out _ (ih _ _) _) _) _) _
      rw [List.foldl_cons]
      exact ((ih2 _).trans ((List.Perm.append_left _ hstep).trans List.perm_middle))

theorem insertAux_all (fuel : ℕ) :
    ∀ (t : QTree) (b : Box),
      List.Perm (getAllObjects (insertAux fuel t b)) (b :: getAllObjects t) := by
  induction fuel with
  | zero => intro t b; simpa only [insertAux] using pushObj_all t b
  | succ fuel ih =>
      intro t b
      cases t with
      | leaf bb lv objs =>
          simp only [insertAux]
          split_ifs with hcond
          · have h := redist_foldl_all fuel bb ih (objs ++ [b])
              ⟨[], leaf (subBox0 bb) (lv+1) [], leaf (subBox1 bb) (lv+1) [],
                  leaf (subBox2 bb) (lv+1) [], leaf (subBox3 bb) (lv+1) []⟩
            simp only [RState.allObjects, getAllObjects, List.append_nil] at h
            exact h.trans (List.perm_append_singleton b objs)
          · simp only [getAllObjects]
            exact List.perm_append_singleton b objs
      | node bb lv objs c0 c1 c2 c3 =>
          simp only [insertAux]
          split_ifs with h0 h1 h2 h3 hov
          · simp only [getAllObjects, List.append_assoc]
            exact perm_cons_out _ ((ih _ _).append_right _) _
          · simp only [getAllObjects, List.append_assoc]
            exact perm_cons_out _ (perm_cons_out _ ((ih _ _).append_right _) _) _
          · simp only [getAllObjects, List.append_assoc]
            exact perm_cons_out _
              (perm_cons_out _ (perm_cons_out _ ((ih _ _).append_right _) _) _) _
          · simp only [getAllObjects, List.append_assoc]
            exact perm_cons_out _ (perm_cons_out _
              (perm_cons_out _ (perm_cons_out _ (ih _ _) _) _) _) _
          · have h := redist_foldl_all fuel bb ih (objs ++ [b]) ⟨[], c0, c1, c2, c3⟩
            simp only [RState.allObjects, List.nil_append, List.append_assoc,
              List.singleton_append] at h
            simp only [getAllObjects, List.append_assoc]
            exact h.trans List.perm_middle
          · simp only [getAllObjects, List.append_assoc, List.singleton_append]
            exact List.perm_middle

theorem redist_foldl_inv (fuel : ℕ) (bb : Box)
    (ihP : ∀ (t : QTree) (b : Box),
      List.Perm (getAllObjects (insertAux fuel t b)) (b :: getAllObjects t))
    (ihI : ∀ (t : QTree) (b : Box), Inv t → Inv (insertAux fuel t b)) :
    ∀ (objs : List Box) (st : RState), RInv bb st →
      RInv bb (objs.foldl (redistStep (insertAux fuel) bb) st) := by
  intro objs
  induction objs with
  | nil => intro st h; exact h
  | cons o objs ih2 =>
      intro st h
      rw [List.foldl_cons]
      apply ih2
      obtain ⟨c0m, c1m, c2m, c3m, i0, i1, i2, i3⟩ := h
      simp only [redistStep]
      split_ifs with g0 g1 g2 g3
      · refine ⟨?_, c1m, c2m, c3m, ihI _ _ i0, i1, i2, i3⟩
        intro x hx
        rcases List.mem_cons.mp ((ihP st.n0 o).mem_iff.mp hx) with rfl | hx'
        · exact g0
        · exact c0m x hx'
      · refine ⟨c0m, ?_, c2m, c3m, i0, ihI _ _ i1, i2, i3⟩
        intro x hx
        rcases List.mem_cons.mp ((ihP st.n1 o).mem_iff.mp hx) with rfl | hx'
        · exact g1
        · exact c1m x hx'
      · refine ⟨c0m, c1m, ?_, c3m, i0, i1, ihI _ _ i2, i3⟩
        intro x hx
        rcases List.mem_cons.mp ((ihP st.n2 o).mem_iff.mp hx) with rfl | hx'
        · exact g2
        · exact c2m x hx'
      · refine ⟨c0m, c1m, c2m, ?_, i0, i1, i2, ihI _ _ i3⟩
        intro x hx
        rcases List.mem_cons.mp ((ihP st.n3 o).mem_iff.mp hx) with rfl | hx'
        · exact g3
        · exact c3m x hx'
      · exact ⟨c0m, c1m, c2m, c3m, i0, i1, i2, i3⟩

theorem insertAux_inv (fuel : ℕ) :
    ∀ (t : QTree) (b : Box), Inv t → Inv (insertAux fuel t b) := by
  induction fuel with
  | zero =>
      intro t b h
      cases t with
      | leaf bb lv objs => trivial
      | node bb lv objs c0 c1 c2 c3 => exact h
  | succ fuel ih =>
      intro t b h
      cases t with
      | leaf bb lv objs =>
          simp only [insertAux]
          split_ifs with hcond
          · have hinit : RInv bb ⟨[], leaf (subBox0 bb) (lv+1) [], leaf (subBox1 bb) (lv+1) [],
                leaf (subBox2 bb) (lv+1) [], leaf (subBox3 bb) (lv+1) []⟩ := by
              refine ⟨?_, ?_, ?_, ?_, trivial, trivial, trivial, trivial⟩ <;>
                (intro x hx; simp [getAllObjects] at hx)
            have hres := redist_foldl_inv fuel bb (insertAux_all fuel) ih (objs ++ [b]) _ hinit
            exact ⟨hres.1, hres.2.1, hres.2.2.1, hres.2.2.2.1, hres.2.2.2.2.1,
              hres.2.2.2.2.2.1, hres.2.2.2.2.2.2.1, hres.2.2.2.2.2.2.2⟩
          · trivial
      | node bb lv objs c0 c1 c2 c3 =>
          obtain ⟨c0m, c1m, c2m, c3m, i0, i1, i2, i3⟩ := h
          simp only [insertAux]
          split_ifs with h0 h1 h2 h3 hov
          · refine ⟨?_, c1m, c2m, c3m, ih _ _ i0, i1, i2, i3⟩
            intro x hx
            rcases List.mem_cons.mp ((insertAux_all fuel c0 b).mem_iff.mp hx) with rfl | hx'
            · exact h0
            · exact c0m x hx'
          · refine ⟨c0m, ?_, c2m, c3m, i0, ih _ _ i1, i2, i3⟩
            intro x hx
            rcases List.mem_cons.mp ((insertAux_all fuel c1 b).mem_iff.mp hx) with rfl | hx'
            · exact h1
            · exact c1m x hx'
          · refine ⟨c0m, c1m, ?_, c3m, i0, i1, ih _ _ i2, i3⟩
            intro x hx
            rcases List.mem_cons.mp ((insertAux_all fuel c2 b).mem_iff.mp hx) with rfl | hx'
            · exact h2
            · exact c2m x hx'
          · refine ⟨c0m, c1m, c2m, ?_, i0, i1, i2, ih _ _ i3⟩
            intro x hx
            rcases List.mem_cons.mp ((insertAux_all fuel c3 b).mem_iff.mp hx) with rfl | hx'
            · exact h3
            · exact c3m x hx'
          · have hres := redist_foldl_inv fuel bb (insertAux_all fuel) ih (objs ++ [b])
              ⟨[], c0, c1, c2, c3⟩ ⟨c0m, c1m, c2m, c3m, i0, i1, i2, i3⟩
            exact ⟨hres.1, hres.2.1, hres.2.2.1, hres.2.2.2.1, hres.2.2.2.2.1,
              hres.2.2.2.2.2.1, hres.2.2.2.2.2.2.1, hres.2.2.2.2.2.2.2⟩
          · exact ⟨c0m, c1m, c2m, c3m, i0, i1, i2, i3⟩

theorem retrieve_sound : ∀ (t : QTree) (q o : Box), Inv t → o ∈ getAllObjects t →
    rectIntersect o q → o ∈ retrieve t q := by
  intro t
  induction t with
  | leaf bb lv objs =>
      intro q o _ hm _
      simpa [retrieve, getAllObjects] using hm
  | node bb lv objs c0 c1 c2 c3 ih0 ih1 ih2 ih3 =>
      intro q o hInv hm hint
      obtain ⟨m0, m1, m2, m3, i0, i1, i2, i3⟩ := hInv
      simp only [getAllObjects, List.append_assoc, List.mem_append] at hm
      rcases QTree.getIndex_mem bb q with hq | hq | hq | hq | hq <;>
        simp only [retrieve, hq, List.mem_append] <;> norm_num
      · -- query straddles: all four children searched
        rcases hm with hm | hm | hm | hm | hm
        · tauto
        · have := ih0 q o i0 hm hint; tauto
        · have := ih1 q o i1 hm hint; tauto
        · have := ih2 q o i2 hm hint; tauto
        · have := ih3 q o i3 hm hint; tauto
      · -- query fits child 0
        rcases hm with hm | hm | hm | hm | hm
        · tauto
        · have := ih0 q o i0 hm hint; tauto
        · exact absurd hint (getIndex_separation bb o q
            (by rw [m1 o hm]; decide) (by rw [hq]; decide) (by rw [m1 o hm, hq]; decide))
        · exact absurd hint (getIndex_separation bb o q
            (by rw [m2 o hm]; decide) (by rw [hq]; decide) (by rw [m2 o hm, hq]; decide))
        · exact absurd hint (getIndex_separation bb o q
            (by rw [m3 o hm]; decide) (by rw [hq]; decide) (by rw [m3 o hm, hq]; decide))
      · -- query fits child 1
        rcases hm with hm | hm | hm | hm | hm
        · tauto
        · exact absurd hint (getIndex_separation bb o q
            (by rw [m0 o hm]; decide) (by rw [hq]; decide) (by rw [m0 o hm, hq]; decide))
        · have := ih1 q o i1 hm hint; tauto
        · exact absurd hint (getIndex_separation bb o q
            (by rw [m2 o hm]; decide) (by rw [hq]; decide) (by rw [m2 o hm, hq]; decide))
        · exact absurd hint (getIndex_separation bb o q
            (by rw [m3 o hm]; decide) (by rw [hq]; decide) (by rw [m3 o hm, hq]; decide))
      · -- query fits child 2
        rcases hm with hm | hm | hm | hm | hm
        · tauto
        · exact absurd hint (getIndex_separation bb o q
            (by rw [m0 o hm]; decide) (by rw [hq]; decide) (by rw [m0 o hm, hq]; decide))
        · exact absurd hint (getIndex_separation bb o q
            (by rw [m1 o hm]; decide) (by rw [hq]; decide) (by rw [m1 o hm, hq]; decide))
        · have := ih2 q o i2 hm hint; tauto
        · exact absurd hint (getIndex_separation bb o q
            (by rw [m3 o hm]; decide) (by rw [hq]; decide) (by rw [m3 o hm, hq]; decide))
      · -- query fits child 3
        rcases hm with hm | hm | hm | hm | hm
        · tauto
        · exact absurd hint (getIndex_separation bb o q
            (by rw [m0 o hm]; decide) (by rw [hq]; decide) (by rw [m0 o hm, hq]; decide))
        · exact absurd hint (getIndex_separation bb o q
            (by rw [m1 o hm]; decide) (by rw [hq]; decide) (by rw [m1 o hm, hq]; decide))
        · exact absurd hint (getIndex_separation bb o q
            (by rw [m2 o hm]; decide) (by rw [hq]; decide) (by rw [m2 o hm, hq]; decide))
        · have := ih3 q o i3 hm hint; tauto

theorem retrieve_count_le : ∀ (t : QTree) (q x : Box),
    (retrieve t q).count x ≤ (getAllObjects t).count x := by
  intro t
  induction t with
  | leaf bb lv objs => intro q x; simp [retrieve, getAllObjects]
  | node bb lv objs c0 c1 c2 c3 ih0 ih1 ih2 ih3 =>
      intro q x
      rcases QTree.getIndex_mem bb q with hq | hq | hq | hq | hq <;>
        simp only [retrieve, hq, getAllObjects, List.count_append] <;> norm_num
      · have := ih0 q x
        have := ih1 q x
        have := ih2 q x
        have := ih3 q x
        omega
      · have := ih0 q x
        omega
      · have := ih1 q x
        omega
      · have := ih2 q x
        omega
      · have := ih3 q x
        omega

theorem clear_inv (t : QTree) : Inv (clear t) := trivial

theorem insertAll_all (t : QTree) (bs : List Box) :
    List.Perm (getAllObjects (insertAll t bs)) (bs ++ getAllObjects t) := by
  induction bs generalizing t with
  | nil => simp [insertAll]
  | cons b bs ih =>
      have h1 : List.Perm (getAllObjects (insertAll (insert t b) bs))
          (bs ++ getAllObjects (insert t b)) := ih (insert t b)
      have h2 : List.Perm (getAllObjects (insert t b)) (b :: getAllObjects t) :=
        insertAux_all (MAX_LEVELS + 1) t b
      exact (h1.trans ((List.Perm.append_left _ h2).trans List.perm_middle))

theorem insertAll_inv (t : QTree) (h : Inv t) (bs : List Box) : Inv (insertAll t bs) := by
  induction bs generalizing t with
  | nil => exact h
  | cons b bs ih => exact ih (insert t b) (insertAux_inv (MAX_LEVELS + 1) t b h)

end QTree

/-- Claim C1: quadtree broad-phase soundness — after clear(), for any finite
list of inserted boxes and any query box, retrieve returns every inserted box
that geometrically intersects the query (no false negatives; false positives
allowed). -/
theorem C1_retrieve_superset :
    ∀ (t : QTree) (bs : List Box) (q b : Box),
      b ∈ bs → rectIntersect b q →
      b ∈ QTree.retrieve (QTree.insertAll (QTree.clear t) bs) q := by
  intro t bs q b hb hint
  apply QTree.retrieve_sound _ _ _ (QTree.insertAll_inv _ (QTree.clear_inv t) bs) _ hint
  have hperm := QTree.insertAll_all (QTree.clear t) bs
  rw [hperm.mem_iff]
  simpa [QTree.clear, QTree.getAllObjects] using hb

/-- Witness for C1: 11 unit boxes (forcing a split of the root) and a query
box over the top-left corner. -/
theorem C1_witness :
    ((⟨2, 2, 1, 1⟩ : Box) ∈ qtBoxes ∧ rectIntersect ⟨2, 2, 1, 1⟩ qtQuery) ∧
    (⟨2, 2, 1, 1⟩ : Box) ∈
      QTree.retrieve (QTree.insertAll (QTree.clear (QTree.make qtBounds)) qtBoxes) qtQuery := by
  have hmem : (⟨2, 2, 1, 1⟩ : Box) ∈ qtBoxes := by simp [qtBoxes]
  have hint : rectIntersect ⟨2, 2, 1, 1⟩ qtQuery := by
    norm_num [rectIntersect, qtQuery]
  exact ⟨⟨hmem, hint⟩, C1_retrieve_superset (QTree.make qtBounds) qtBoxes qtQuery _ hmem hint⟩

/-- Claim C10: retrieve returns no duplicates — with distinct inserted boxes,
each occurs at most once in any retrieve result (insertion stores each box in
exactly one node and redistribution moves, never copies). -/
theorem C10_retrieve_no_duplicates :
    ∀ (t : QTree) (bs : List Box) (q b : Box), bs.Nodup →
      (QTree.retrieve (QTree.insertAll (QTree.clear t) bs) q).count b ≤ 1 := by
  intro t bs q b hnd
  have h1 := QTree.retrieve_count_le (QTree.insertAll (QTree.clear t) bs) q b
  have h2 : (QTree.getAllObjects (QTree.insertAll (QTree.clear t) bs)).count b = bs.count b := by
    have hperm := QTree.insertAll_all (QTree.clear t) bs
    rw [hperm.count_eq]
    simp [QTree.clear, QTree.getAllObjects]
  have h3 : bs.count b ≤ 1 := List.nodup_iff_count_le_one.mp hnd b
  omega

/-- Witness for C10 on the same 11-box configuration. -/
theorem C10_witness :
    qtBoxes.Nodup ∧
    (QTree.retrieve (QTree.insertAll (QTree.clear (QTree.make qtBounds)) qtBoxes)
      qtQuery).count ⟨2, 2, 1, 1⟩ ≤ 1 := by
  have hnd : qtBoxes.Nodup := by
    norm_num [qtBoxes, List.nodup_cons, List.mem_cons, Box.mk.injEq]
  exact ⟨hnd, C10_retrieve_no_duplicates (QTree.make qtBounds) qtBoxes qtQuery _ hnd⟩

/-! ### C2, C3: collision-pass resolution -/

/-- Bridge for evaluating the strict sqrt-based collision predicate on
concrete circles: compare squared center distance with the squared radius
sum. -/
theorem circleCollision_iff_sq (a b : Circle) (h : 0 < a.radius + b.radius) :
    Utils.circleCollision a b ↔
      (b.x - a.x) * (b.x - a.x) + (b.y - a.y) * (b.y - a.y) <
        (a.radius + b.radius) ^ 2 := by
  unfold Utils.circleCollision Utils.distance
  exact Real.sqrt_lt' h

theorem isCollidingWithSnake_test (i j : ℕ) (sz hx hy tx ty sz' hx' hy' tx' ty' : ℝ) :
    isCollidingWithSnake (testSnake i sz hx hy tx ty) (testSnake j sz' hx' hy' tx' ty') ↔
      (i ≠ j ∧ Utils.circleCollision ⟨hx, hy, 10⟩ ⟨tx', ty', 9⟩) := by
  simp [isCollidingWithSnake, testSnake, headSeg]

theorem isHeadCollidingWithHead_test (i j : ℕ) (sz hx hy tx ty sz' hx' hy' tx' ty' : ℝ) :
    isHeadCollidingWithHead (testSnake i sz hx hy tx ty) (testSnake j sz' hx' hy' tx' ty') ↔
      (i ≠ j ∧ Utils.circleCollision ⟨hx, hy, 10⟩ ⟨hx', hy', 10⟩) := by
  simp [isHeadCollidingWithHead, testSnake, headSeg]

/-! Step equations for the embedded loops. -/

theorem npcInnerLoop_nil (npc1 : SnakeS) : npcInnerLoop npc1 [] = (npc1, []) := rfl

theorem npcOuterLoopAux_zero (l : List SnakeS) : npcOuterLoopAux 0 l = l := rfl

theorem npcOuterLoopAux_succ (fuel : ℕ) (npc1 : SnakeS) (rest : List SnakeS) :
    npcOuterLoopAux (fuel + 1) (npc1 :: rest) =
      if npc1.markedForDeletion = true then npc1 :: npcOuterLoopAux fuel rest
      else (npcInnerLoop npc1 rest).1 :: npcOuterLoopAux fuel (npcInnerLoop npc1 rest).2 := rfl

theorem cpscLoop_nil (player : SnakeS) : cpscLoop player [] = (player, []) := rfl

theorem npcFilter_two (A B : SnakeS) (hA : A.markedForDeletion = false)
    (hB : B.markedForDeletion = false) :
    List.filter (fun e => !e.markedForDeletion) [A, B] = [A, B] := by
  simp [List.filter, hA, hB]

/-- NPC pass, pair in list order [striker, struck]: the striker's own body
check fires first and the striker dies (break); the struck snake is left
untouched. -/
theorem npcPass_strike_first (A B : SnakeS) (hA : A.markedForDeletion = false)
    (hB : B.markedForDeletion = false) (h1 : isCollidingWithSnake A B) :
    checkNPCCollisions [A, B] = [dieFlag A, B] := by
  have hin : npcInnerLoop A [B] = (dieFlag A, [B]) := by
    simp only [npcInnerLoop]
    rw [if_neg (by rw [hB]; exact Bool.false_ne_true), if_pos h1]
  unfold checkNPCCollisions npcOuterLoop
  rw [npcFilter_two A B hA hB]
  show npcOuterLoopAux (1 + 1) (A :: [B]) = _
  rw [npcOuterLoopAux_succ, if_neg (by rw [hA]; exact Bool.false_ne_true), hin]
  show dieFlag A :: npcOuterLoopAux (0 + 1) (B :: []) = _
  rw [npcOuterLoopAux_succ, if_neg (by rw [hB]; exact Bool.false_ne_true), npcInnerLoop_nil]
  rfl

/-- NPC pass, pair in list order [struck, striker]: the struck snake's body
check misses, the striker's check fires second (continue) and only the striker
dies. -/
theorem npcPass_strike_second (A B : SnakeS) (hA : A.markedForDeletion = false)
    (hB : B.markedForDeletion = false) (hBA : ¬ isCollidingWithSnake B A)
    (h1 : isCollidingWithSnake A B) :
    checkNPCCollisions [B, A] = [B, dieFlag A] := by
  have hin : npcInnerLoop B [A] = (B, [dieFlag A]) := by
    simp only [npcInnerLoop]
    rw [if_neg (by rw [hA]; exact Bool.false_ne_true), if_neg hBA, if_pos h1]
  unfold checkNPCCollisions npcOuterLoop
  rw [npcFilter_two B A hB hA]
  show npcOuterLoopAux (1 + 1) (B :: [A]) = _
  rw [npcOuterLoopAux_succ, if_neg (by rw [hB]; exact Bool.false_ne_true), hin]
  show B :: npcOuterLoopAux (0 + 1) (dieFlag A :: []) = _
  rw [npcOuterLoopAux_succ,
    if_pos (show (dieFlag A).markedForDeletion = true from rfl)]
  rfl

/-- NPC pass, overlapping heads, equal sizes, no body strikes: both snakes
die. -/
theorem npcPass_head_tie (A B : SnakeS) (hA : A.markedForDeletion = false)
    (hB : B.markedForDeletion = false) (hn1 : ¬ isCollidingWithSnake A B)
    (hn2 : ¬ isCollidingWithSnake B A) (hh : isHeadCollidingWithHead A B)
    (heq : A.size = B.size) :
    checkNPCCollisions [A, B] = [dieFlag A, dieFlag B] := by
  have hin : npcInnerLoop A [B] = (dieFlag A, [dieFlag B]) := by
    simp only [npcInnerLoop]
    rw [if_neg (by rw [hB]; exact Bool.false_ne_true), if_neg hn1, if_neg hn2, if_pos hh,
      if_neg (by rw [heq]; exact lt_irrefl _), if_neg (by rw [heq]; exact lt_irrefl _)]
  unfold checkNPCCollisions npcOuterLoop
  rw [npcFilter_two A B hA hB]
  show npcOuterLoopAux (1 + 1) (A :: [B]) = _
  rw [npcOuterLoopAux_succ, if_neg (by rw [hA]; exact Bool.false_ne_true), hin]
  show dieFlag A :: npcOuterLoopAux (0 + 1) (dieFlag B :: []) = _
  rw [npcOuterLoopAux_succ,
    if_pos (show (dieFlag B).markedForDeletion = true from rfl)]
  rfl

/-- NPC pass, overlapping heads, first snake strictly smaller: the smaller
dies, the larger survives. -/
theorem npcPass_head_lt (A B : SnakeS) (hA : A.markedForDeletion = false)
    (hB : B.markedForDeletion = false) (hn1 : ¬ isCollidingWithSnake A B)
    (hn2 : ¬ isCollidingWithSnake B A) (hh : isHeadCollidingWithHead A B)
    (hlt : A.size < B.size) :
    checkNPCCollisions [A, B] = [dieFlag A, B] := by
  have hin : npcInnerLoop A [B] = (dieFlag A, [B]) := by
    simp only [npcInnerLoop]
    rw [if_neg (by rw [hB]; exact Bool.false_ne_true), if_neg hn1, if_neg hn2, if_pos hh,
      if_pos hlt]
  unfold checkNPCCollisions npcOuterLoop
  rw [npcFilter_two A B hA hB]
  show npcOuterLoopAux (1 + 1) (A :: [B]) = _
  rw [npcOuterLoopAux_succ, if_neg (by rw [hA]; exact Bool.false_ne_true), hin]
  show dieFlag A :: npcOuterLoopAux (0 + 1) (B :: []) = _
  rw [npcOuterLoopAux_succ, if_neg (by rw [hB]; exact Bool.false_ne_true), npcInnerLoop_nil]
  rfl

/-- NPC pass, overlapping heads, second snake strictly smaller: the smaller
dies (continue), the larger survives. -/
theorem npcPass_head_gt (A B : SnakeS) (hA : A.markedForDeletion = false)
    (hB : B.markedForDeletion = false) (hn1 : ¬ isCollidingWithSnake A B)
    (hn2 : ¬ isCollidingWithSnake B A) (hh : isHeadCollidingWithHead A B)
    (hgt : B.size < A.size) :
    checkNPCCollisions [A, B] = [A, dieFlag B] := by
  have hin : npcInnerLoop A [B] = (A, [dieFlag B]) := by
    simp only [npcInnerLoop]
    rw [if_neg (by rw [hB]; exact Bool.false_ne_true), if_neg hn1, if_neg hn2, if_pos hh,
      if_neg (not_lt.mpr hgt.le), if_pos hgt]
  unfold checkNPCCollisions npcOuterLoop
  rw [npcFilter_two A B hA hB]
  show npcOuterLoopAux (1 + 1) (A :: [B]) = _
  rw [npcOuterLoopAux_succ, if_neg (by rw [hA]; exact Bool.false_ne_true), hin]
  show A :: npcOuterLoopAux (0 + 1) (dieFlag B :: []) = _
  rw [npcOuterLoopAux_succ,
    if_pos (show (dieFlag B).markedForDeletion = true from rfl)]
  rfl

/-- Player pass, one live snake, overlapping heads, no body strikes, player
not strictly smaller (including the exact tie): only the entity dies; the
player survives and its kill counter is bumped. -/
theorem cpsc_head_ge (player e : SnakeS) (hp : player.markedForDeletion = false)
    (he : e.markedForDeletion = false) (hn1 : ¬ isCollidingWithSnake player e)
    (hn2 : ¬ isCollidingWithSnake e player) (hh : isHeadCollidingWithHead player e)
    (hge : ¬ player.size < e.size) :
    checkPlayerSnakeCollisions player [e] =
      ({ player with killedNPCs := player.killedNPCs + 1 }, [dieFlag e]) := by
  have hskip : ¬(e.id = player.id ∨ e.markedForDeletion = true) := by
    rintro (h | h)
    · exact hh.1 h.symm
    · rw [he] at h
      exact Bool.false_ne_true h
  unfold checkPlayerSnakeCollisions
  rw [if_neg (by rw [hp]; exact Bool.false_ne_true)]
  simp only [cpscLoop]
  rw [if_neg hskip, if_neg hn1, if_neg hn2, if_pos hh, if_neg hge]

/-- Player pass, one live snake, overlapping heads, no body strikes, player
strictly smaller: the player dies, the entity survives. -/
theorem cpsc_head_lt (player e : SnakeS) (hp : player.markedForDeletion = false)
    (he : e.markedForDeletion = false) (hn1 : ¬ isCollidingWithSnake player e)
    (hn2 : ¬ isCollidingWithSnake e player) (hh : isHeadCollidingWithHead player e)
    (hlt : player.size < e.size) :
    checkPlayerSnakeCollisions player [e] = (dieFlag player, [e]) := by
  have hskip : ¬(e.id = player.id ∨ e.markedForDeletion = true) := by
    rintro (h | h)
    · exact hh.1 h.symm
    · rw [he] at h
      exact Bool.false_ne_true h
  unfold checkPlayerSnakeCollisions
  rw [if_neg (by rw [hp]; exact Bool.false_ne_true)]
  simp only [cpscLoop]
  rw [if_neg hskip, if_neg hn1, if_neg hn2, if_pos hh, if_pos hlt]

/-- If the player's head overlaps a non-head segment of some snake that is
unflagged at pass start, the player ends the entity loop flagged destroyed,
wherever that snake sits in the list. -/
theorem cpscLoop_player_dies (B : SnakeS) (hB : B.markedForDeletion = false) :
    ∀ (entities : List SnakeS) (player : SnakeS), B ∈ entities →
      isCollidingWithSnake player B →
      (cpscLoop player entities).1.markedForDeletion = true := by
  intro entities
  induction entities with
  | nil =>
      intro player hmem
      exact absurd hmem (List.not_mem_nil B)
  | cons e rest ih =>
      intro player hmem hcol
      rcases List.mem_cons.mp hmem with rfl | hmem'
      · have hskip : ¬(B.id = player.id ∨ B.markedForDeletion = true) := by
          rintro (h | h)
          · exact hcol.1 h.symm
          · rw [hB] at h
            exact Bool.false_ne_true h
        simp only [cpscLoop]
        rw [if_neg hskip, if_pos hcol]
        rfl
      · simp only [cpscLoop]
        by_cases h1 : (e.id = player.id ∨ e.markedForDeletion = true)
        · rw [if_pos h1]
          show (cpscLoop player rest).1.markedForDeletion = true
          exact ih player hmem' hcol
        · rw [if_neg h1]
          by_cases h2 : isCollidingWithSnake player e
          · rw [if_pos h2]
            rfl
          · rw [if_neg h2]
            by_cases h4 : isCollidingWithSnake e player
            · rw [if_pos h4]
              by_cases h3 : isHeadCollidingWithHead player e
              · rw [if_pos h3]
                by_cases h5 : player.size < e.size
                · rw [if_pos h5]
                  rfl
                · rw [if_neg h5]
                  show (cpscLoop _ rest).1.markedForDeletion = true
                  exact ih _ hmem' hcol
              · rw [if_neg h3]
                show (cpscLoop _ rest).1.markedForDeletion = true
                exact ih _ hmem' hcol
            · rw [if_neg h4]
              by_cases h3 : isHeadCollidingWithHead player e
              · rw [if_pos h3]
                by_cases h5 : player.size < e.size
                · rw [if_pos h5]
                  rfl
                · rw [if_neg h5]
                  show (cpscLoop _ rest).1.markedForDeletion = true
                  exact ih _ hmem' hcol
              · rw [if_neg h3]
                show (cpscLoop _ rest).1.markedForDeletion = true
                exact ih _ hmem' hcol

/-! Concrete collision facts for the test snakes. -/

theorem ccA : Utils.circleCollision ⟨0, 0, 10⟩ ⟨5, 0, 9⟩ := by
  rw [circleCollision_iff_sq _ _ (by norm_num)]
  norm_num

theorem ccH : Utils.circleCollision ⟨0, 0, 10⟩ ⟨5, 0, 10⟩ := by
  rw [circleCollision_iff_sq _ _ (by norm_num)]
  norm_num

theorem ccH' : Utils.circleCollision ⟨5, 0, 10⟩ ⟨0, 0, 10⟩ := by
  rw [circleCollision_iff_sq _ _ (by norm_num)]
  norm_num

theorem nc1 : ¬ Utils.circleCollision ⟨100, 100, 10⟩ ⟨-5, 0, 9⟩ := by
  rw [circleCollision_iff_sq _ _ (by norm_num)]
  norm_num

theorem nc2 : ¬ Utils.circleCollision ⟨0, 0, 10⟩ ⟨400, 400, 9⟩ := by
  rw [circleCollision_iff_sq _ _ (by norm_num)]
  norm_num

theorem nc3 : ¬ Utils.circleCollision ⟨5, 0, 10⟩ ⟨300, 300, 9⟩ := by
  rw [circleCollision_iff_sq _ _ (by norm_num)]
  norm_num

theorem colAB : isCollidingWithSnake npcA npcB := by
  rw [npcA, npcB, isCollidingWithSnake_test]
  exact ⟨by norm_num, ccA⟩

theorem ncolBA : ¬ isCollidingWithSnake npcB npcA := by
  rw [npcB, npcA, isCollidingWithSnake_test]
  rintro ⟨-, hc⟩
  exact nc1 hc

theorem colPB : isCollidingWithSnake playerP npcB := by
  rw [playerP, npcB, isCollidingWithSnake_test]
  exact ⟨by norm_num, ccA⟩

theorem hhCD : isHeadCollidingWithHead npcC npcD := by
  rw [npcC, npcD, isHeadCollidingWithHead_test]
  exact ⟨by norm_num, ccH⟩

theorem ncolCD : ¬ isCollidingWithSnake npcC npcD := by
  rw [npcC, npcD, isCollidingWithSnake_test]
  rintro ⟨-, hc⟩
  exact nc2 hc

theorem ncolDC : ¬ isCollidingWithSnake npcD npcC := by
  rw [npcD, npcC, isCollidingWithSnake_test]
  rintro ⟨-, hc⟩
  exact nc3 hc

theorem hhPE : isHeadCollidingWithHead playerP npcE := by
  rw [playerP, npcE, isHeadCollidingWithHead_test]
  exact ⟨by norm_num, ccH⟩

theorem ncolPE : ¬ isCollidingWithSnake playerP npcE := by
  rw [playerP, npcE, isCollidingWithSnake_test]
  rintro ⟨-, hc⟩
  exact nc2 hc

theorem ncolEP : ¬ isCollidingWithSnake npcE playerP := by
  rw [npcE, playerP, isCollidingWithSnake_test]
  rintro ⟨-, hc⟩
  exact nc3 hc

theorem hhFG : isHeadCollidingWithHead npcF npcG := by
  rw [npcF, npcG, isHeadCollidingWithHead_test]
  exact ⟨by norm_num, ccH⟩

theorem hhGF : isHeadCollidingWithHead npcG npcF := by
  rw [npcG, npcF, isHeadCollidingWithHead_test]
  exact ⟨by norm_num, ccH'⟩

theorem ncolFG : ¬ isCollidingWithSnake npcF npcG := by
  rw [npcF, npcG, isCollidingWithSnake_test]
  rintro ⟨-, hc⟩
  exact nc2 hc

theorem ncolGF : ¬ isCollidingWithSnake npcG npcF := by
  rw [npcG, npcF, isCollidingWithSnake_test]
  rintro ⟨-, hc⟩
  exact nc3 hc

/-- Claim C2 counterexample: npcA's head overlaps a non-head segment of npcB
(both live), yet after one NPC collision pass npcB — the snake that was
struck — is NOT flagged; the striker npcA is the one flagged destroyed. -/
theorem C2_counterexample :
    isCollidingWithSnake npcA npcB ∧
    npcA.markedForDeletion = false ∧ npcB.markedForDeletion = false ∧
    checkNPCCollisions [npcA, npcB] = [dieFlag npcA, npcB] ∧
    (dieFlag npcA).markedForDeletion = true ∧ npcB.markedForDeletion = false :=
  ⟨colAB, rfl, rfl, npcPass_strike_first npcA npcB rfl rfl colAB, rfl, rfl⟩

/-- Claim C2 (amended): in a body strike the STRIKER dies, not the struck
snake: for a pass over two live NPCs where A's head overlaps a non-head
segment of B (in either list order; for the order [B, A], provided B's own
body check misses), A is flagged destroyed and B survives the pair; and — the
part of the original claim that does hold — if the player's head strikes any
live snake's body, the player ends the pass flagged destroyed. -/
theorem C2_striker_dies :
    (∀ A B : SnakeS, A.markedForDeletion = false → B.markedForDeletion = false →
      isCollidingWithSnake A B → checkNPCCollisions [A, B] = [dieFlag A, B]) ∧
    (∀ A B : SnakeS, A.markedForDeletion = false → B.markedForDeletion = false →
      ¬ isCollidingWithSnake B A → isCollidingWithSnake A B →
      checkNPCCollisions [B, A] = [B, dieFlag A]) ∧
    (∀ (entities : List SnakeS) (player B : SnakeS), B ∈ entities →
      B.markedForDeletion = false → isCollidingWithSnake player B →
      (checkPlayerSnakeCollisions player entities).1.markedForDeletion = true) := by
  refine ⟨npcPass_strike_first, npcPass_strike_second, ?_⟩
  intro entities player B hmem hB hcol
  unfold checkPlayerSnakeCollisions
  by_cases hp : player.markedForDeletion = true
  · rw [if_pos hp]
    exact hp
  · rw [if_neg hp]
    exact cpscLoop_player_dies B hB entities player hmem hcol

/-- Witness for C2 at the concrete snakes. -/
theorem C2_witness :
    checkNPCCollisions [npcA, npcB] = [dieFlag npcA, npcB] ∧
    checkNPCCollisions [npcB, npcA] = [npcB, dieFlag npcA] ∧
    (checkPlayerSnakeCollisions playerP [npcB]).1.markedForDeletion = true :=
  ⟨C2_striker_dies.1 npcA npcB rfl rfl colAB,
   C2_striker_dies.2.1 npcA npcB rfl rfl ncolBA colAB,
   C2_striker_dies.2.2 [npcB] playerP npcB (by simp) rfl colPB⟩

/-- Claim C3 counterexample: playerP and npcE have equal sizes and
overlapping heads (no body strikes); the claim says both die, but after the
player pass only the NPC is flagged — the player survives with its kill
counter bumped. -/
theorem C3_counterexample :
    isHeadCollidingWithHead playerP npcE ∧ playerP.size = npcE.size ∧
    playerP.markedForDeletion = false ∧ npcE.markedForDeletion = false ∧
    checkPlayerSnakeCollisions playerP [npcE] =
      ({ playerP with killedNPCs := playerP.killedNPCs + 1 }, [dieFlag npcE]) ∧
    ({ playerP with killedNPCs := playerP.killedNPCs + 1 }).markedForDeletion = false :=
  ⟨hhPE, rfl, rfl, rfl,
   cpsc_head_ge playerP npcE rfl rfl ncolPE ncolEP hhPE
     (by rw [show playerP.size = (10 : ℝ) from rfl, show npcE.size = (10 : ℝ) from rfl]
         exact lt_irrefl _),
   rfl⟩

/-- Claim C3 (amended): for NPC-NPC pairs (pure head-to-head, no body
strikes) the strictly smaller snake dies and the larger survives, and an
exact tie kills both.  For player-NPC pairs the player dies only when
strictly smaller; otherwise — including an exact tie — the NPC dies and the
player survives (ties are resolved in the player's favor). -/
theorem C3_head_to_head :
    (∀ A B : SnakeS, A.markedForDeletion = false → B.markedForDeletion = false →
      ¬ isCollidingWithSnake A B → ¬ isCollidingWithSnake B A →
      isHeadCollidingWithHead A B → A.size = B.size →
      checkNPCCollisions [A, B] = [dieFlag A, dieFlag B]) ∧
    (∀ A B : SnakeS, A.markedForDeletion = false → B.markedForDeletion = false →
      ¬ isCollidingWithSnake A B → ¬ isCollidingWithSnake B A →
      isHeadCollidingWithHead A B → A.size < B.size →
      checkNPCCollisions [A, B] = [dieFlag A, B]) ∧
    (∀ A B : SnakeS, A.markedForDeletion = false → B.markedForDeletion = false →
      ¬ isCollidingWithSnake A B → ¬ isCollidingWithSnake B A →
      isHeadCollidingWithHead A B → B.size < A.size →
      checkNPCCollisions [A, B] = [A, dieFlag B]) ∧
    (∀ player e : SnakeS, player.markedForDeletion = false → e.markedForDeletion = false →
      ¬ isCollidingWithSnake player e → ¬ isCollidingWithSnake e player →
      isHeadCollidingWithHead player e → player.size < e.size →
      checkPlayerSnakeCollisions player [e] = (dieFlag player, [e])) ∧
    (∀ player e : SnakeS, player.markedForDeletion = false → e.markedForDeletion = false →
      ¬ isCollidingWithSnake player e → ¬ isCollidingWithSnake e player →
      isHeadCollidingWithHead player e → ¬ player.size < e.size →
      checkPlayerSnakeCollisions player [e] =
        ({ player with killedNPCs := player.killedNPCs + 1 }, [dieFlag e])) :=
  ⟨npcPass_head_tie, npcPass_head_lt, npcPass_head_gt, cpsc_head_lt, cpsc_head_ge⟩

/-- Witness for C3 at the concrete snakes (tie, smaller-first, larger-first,
player smaller, player tie). -/
theorem C3_witness :
    checkNPCCollisions [npcC, npcD] = [dieFlag npcC, dieFlag npcD] ∧
    checkNPCCollisions [npcF, npcG] = [dieFlag npcF, npcG] ∧
    checkNPCCollisions [npcG, npcF] = [npcG, dieFlag npcF] ∧
    checkPlayerSnakeCollisions npcF [npcG] = (dieFlag npcF, [npcG]) ∧
    checkPlayerSnakeCollisions playerP [npcE] =
      ({ playerP with killedNPCs := playerP.killedNPCs + 1 }, [dieFlag npcE]) :=
  ⟨C3_head_to_head.1 npcC npcD rfl rfl ncolCD ncolDC hhCD rfl,
   C3_head_to_head.2.1 npcF npcG rfl rfl ncolFG ncolGF hhFG
     (by rw [show npcF.size = (8 : ℝ) from rfl, show npcG.size = (12 : ℝ) from rfl]
         norm_num),
   C3_head_to_head.2.2.1 npcG npcF rfl rfl ncolGF ncolFG hhGF
     (by rw [show npcF.size = (8 : ℝ) from rfl, show npcG.size = (12 : ℝ) from rfl]
         norm_num),
   C3_head_to_head.2.2.2.1 npcF npcG rfl rfl ncolFG ncolGF hhFG
     (by rw [show npcF.size = (8 : ℝ) from rfl, show npcG.size = (12 : ℝ) from rfl]
         norm_num),
   C3_head_to_head.2.2.2.2 playerP npcE rfl rfl ncolPE ncolEP hhPE
     (by rw [show playerP.size = (10 : ℝ) from rfl, show npcE.size = (10 : ℝ) from rfl]
         exact lt_irrefl _)⟩

/-! ### C5: boost depletion at the minimum-size threshold -/

theorem handleBoosting_min (randStop : Bool) (s : SnakeS)
    (h : s.size ≤ MIN_SEGMENTS_FOR_BOOST) :
    handleBoosting randStop s = { s with boosting := false } := by
  unfold handleBoosting
  rw [if_pos h, if_neg (by simp)]

/-- When the boosting-consumption guard (snake.js line 99) is off, Snake.update
changes neither the boosting flag nor the size. -/
theorem updateSnake_no_consume (dropRoll : Bool) (s : SnakeS)
    (h : ¬(s.boosting = true ∧ MIN_SEGMENTS_FOR_BOOST < s.size)) :
    (updateSnake dropRoll s).1.boosting = s.boosting ∧
    (updateSnake dropRoll s).1.size = s.size := by
  unfold updateSnake
  rw [if_neg h]
  exact ⟨rfl, rfl⟩

/-- Claim C5 counterexample: a boosting player at exactly the threshold size
still has boosting = true after its next update — Player.update contains no
boost-clearing logic (only mouseup clears the flag). -/
theorem C5_counterexample :
    playerAtMin.boosting = true ∧ playerAtMin.size ≤ MIN_SEGMENTS_FOR_BOOST ∧
    (playerUpdateCore 0 false playerAtMin).1.boosting = true := by
  have hsz : ¬(MIN_SEGMENTS_FOR_BOOST < ({ playerAtMin with angle := (0:ℝ) }).size) := by
    show ¬((5 : ℝ) < 5)
    exact lt_irrefl _
  refine ⟨rfl, ?_, ?_⟩
  · rw [show playerAtMin.size = (5 : ℝ) from rfl]
    norm_num [MIN_SEGMENTS_FOR_BOOST]
  · unfold playerUpdateCore
    have h := updateSnake_no_consume false { playerAtMin with angle := 0 }
      (fun hc => absurd hc.2 hsz)
    exact h.1.trans rfl

/-- Claim C5 (amended): at or below the minimum-boost size, the NPC's next
update force-clears the boosting flag (handleBoosting) and leaves the size
unchanged; the player's next update also leaves the size unchanged, but does
NOT clear the flag — Player.update has no boost logic, the flag is controlled
by the mouse listeners alone (see the counterexample). -/
theorem C5_boost_depletion :
    (∀ (s : SnakeS) (aiBoost : Bool) (aiAngle : ℝ) (randStop dropRoll : Bool),
      s.size ≤ MIN_SEGMENTS_FOR_BOOST →
      (npcUpdateCore aiBoost aiAngle randStop dropRoll s).1.boosting = false ∧
      (npcUpdateCore aiBoost aiAngle randStop dropRoll s).1.size = s.size) ∧
    (∀ (s : SnakeS) (steerAngle : ℝ) (dropRoll : Bool),
      s.size ≤ MIN_SEGMENTS_FOR_BOOST →
      (playerUpdateCore steerAngle dropRoll s).1.boosting = s.boosting ∧
      (playerUpdateCore steerAngle dropRoll s).1.size = s.size) := by
  constructor
  · intro s aiBoost aiAngle randStop dropRoll hsz
    unfold npcUpdateCore
    rw [handleBoosting_min randStop { s with boosting := aiBoost, angle := aiAngle } hsz]
    have h := updateSnake_no_consume dropRoll
      { { s with boosting := aiBoost, angle := aiAngle } with boosting := false }
      (by simp)
    exact ⟨h.1.trans rfl, h.2.trans rfl⟩
  · intro s steerAngle dropRoll hsz
    unfold playerUpdateCore
    have h := updateSnake_no_consume dropRoll { s with angle := steerAngle }
      (fun hc => absurd hc.2 (not_lt.mpr hsz))
    exact ⟨h.1.trans rfl, h.2.trans rfl⟩

/-- Witness for C5 at the concrete boosting snakes. -/
theorem C5_witness :
    (npcAtMin.size ≤ MIN_SEGMENTS_FOR_BOOST ∧ playerAtMin.size ≤ MIN_SEGMENTS_FOR_BOOST) ∧
    (npcUpdateCore true 0 false false npcAtMin).1.boosting = false ∧
    (npcUpdateCore true 0 false false npcAtMin).1.size = npcAtMin.size ∧
    (playerUpdateCore 0 false playerAtMin).1.size = playerAtMin.size := by
  have h1 : npcAtMin.size ≤ MIN_SEGMENTS_FOR_BOOST := by
    rw [show npcAtMin.size = (4 : ℝ) from rfl]
    norm_num [MIN_SEGMENTS_FOR_BOOST]
  have h2 : playerAtMin.size ≤ MIN_SEGMENTS_FOR_BOOST := by
    rw [show playerAtMin.size = (5 : ℝ) from rfl]
    norm_num [MIN_SEGMENTS_FOR_BOOST]
  exact ⟨⟨h1, h2⟩, (C5_boost_depletion.1 npcAtMin true 0 false false h1).1,
    (C5_boost_depletion.1 npcAtMin true 0 false false h1).2,
    (C5_boost_depletion.2 playerAtMin 0 false h2).2⟩

/-! ### C4: segment-count invariant -/

theorem growSegmentsAux_length (sp r : ℝ) (ideal : ℕ) :
    ∀ (fuel : ℕ) (segs : List Circle),
      (growSegmentsAux sp r ideal fuel segs).length =
        if segs.length < ideal then min ideal (segs.length + fuel) else segs.length := by
  intro fuel
  induction fuel with
  | zero =>
      intro segs
      simp only [growSegmentsAux]
      split_ifs with h <;> omega
  | succ fuel ih =>
      intro segs
      simp only [growSegmentsAux]
      split_ifs with h
      · rw [ih]
        simp only [List.length_append, List.length_singleton]
        split_ifs <;> omega
      · rfl

/-- updateSegments always leaves exactly the ideal segment count — when it is
reached. -/
theorem updateSegmentsList_length (s : SnakeS) :
    (updateSegmentsList s).length = (idealSegmentCount s.size).toNat := by
  unfold updateSegmentsList
  rw [List.length_take, growSegmentsAux_length]
  split_ifs <;> omega

/-- On ticks where updateSegments runs (no boost food-drop), Snake.update
restores the invariant segment count = max(5, floor(size / 2)). -/
theorem updateSnake_keeps_invariant (dropRoll : Bool) (s : SnakeS)
    (h : ¬(s.boosting = true ∧ MIN_SEGMENTS_FOR_BOOST < s.size) ∨ dropRoll = false) :
    ((updateSnake dropRoll s).1.segments.length : ℤ) =
      idealSegmentCount (updateSnake dropRoll s).1.size := by
  have hpos : ∀ z : ℝ, (0 : ℤ) ≤ idealSegmentCount z := fun z =>
    le_trans (by norm_num) (le_max_left 5 _)
  rcases h with h | h
  · unfold updateSnake
    rw [if_neg h]
    show ((updateSegmentsList _).length : ℤ) = _
    rw [updateSegmentsList_length, Int.toNat_of_nonneg (hpos _)]
    rfl
  · by_cases hc : s.boosting = true ∧ MIN_SEGMENTS_FOR_BOOST < s.size
    · unfold updateSnake
      rw [if_pos hc, h, if_neg Bool.false_ne_true]
      show ((updateSegmentsList _).length : ℤ) = _
      rw [updateSegmentsList_length, Int.toNat_of_nonneg (hpos _)]
      rfl
    · unfold updateSnake
      rw [if_neg hc]
      show ((updateSegmentsList _).length : ℤ) = _
      rw [updateSegmentsList_length, Int.toNat_of_nonneg (hpos _)]
      rfl

/-- Claim C4, failing input (code bug): on a tick where a boosting snake drops
food, Snake.update returns before updateSegments (snake.js line 105), so the
size is consumed but the segments are not resized: the documented invariant
segment count = max(5, floor(size / 2)) fails on boostSnake (6 segments,
ideal count 5 after consumption). -/
theorem C4_invariant_broken_on_drop :
    (updateSnake true boostSnake).1.segments.length = 6 ∧
    idealSegmentCount (updateSnake true boostSnake).1.size = 5 ∧
    ((updateSnake true boostSnake).1.segments.length : ℤ) ≠
      idealSegmentCount (updateSnake true boostSnake).1.size := by
  have hcond : boostSnake.boosting = true ∧ MIN_SEGMENTS_FOR_BOOST < boostSnake.size := by
    refine ⟨rfl, ?_⟩
    rw [show boostSnake.size = (12 : ℝ) from rfl]
    norm_num [MIN_SEGMENTS_FOR_BOOST]
  have hlen : (updateSnake true boostSnake).1.segments.length = 6 := by
    unfold updateSnake
    rw [if_pos hcond, if_pos rfl]
    rfl
  have hsize : (updateSnake true boostSnake).1.size = 12 - BOOST_CONSUMPTION := by
    unfold updateSnake
    rw [if_pos hcond, if_pos rfl]
    rfl
  have hideal : idealSegmentCount (updateSnake true boostSnake).1.size = 5 := by
    rw [hsize]
    unfold idealSegmentCount BOOST_CONSUMPTION
    rw [show ⌊((12 : ℝ) - 1 / 20) / 2⌋ = 5 from by
      rw [Int.floor_eq_iff]
      constructor <;> norm_num]
    norm_num
  exact ⟨hlen, hideal, by rw [hlen, hideal]; norm_num⟩

end SlitherSpec
